import Mathlib

/-!
Verification of the gaby Game Boy emulator core against its specification.

The Rust sources are shallowly embedded: machine integers (`u8`, `u16`)
become `Nat` with explicit `% 256` / `% 65536` where wrapping matters,
fallible operations (checked arithmetic that would abort, decode errors)
return `Except EmuErr`, and the mutable `Memory` bus becomes a structure
passed explicitly.
-/

namespace Gaby

/-- Runtime failures of the embedded emulator: the CPU decode error
`Unimplemented opcode 0xNN` (`cpu.rs`), the `unimplemented!()` abort in
`halt` (`instructions.rs`), and checked 16-bit address/program-counter
arithmetic overflowing (debug-build abort in `memory.rs` / `cpu.rs`). -/
inductive EmuErr where
  | unimplementedOpcode (op : Nat)
  | haltNotImplemented
  | addrOverflow
  deriving DecidableEq, Repr

/-- `Memory` from `memory.rs`: the flat 64 KiB byte array `data`.
`ioWrittenTo` is the per-I/O-register write-watch flag array.
Modelled from the spec: the `io_written_to` field is consumed as
`mem.io_written_to[...]` by `audio.rs` but its declaration and the
write site in `Memory::write_byte` are missing from the provided
`memory.rs` (the snapshot predates them); the spec says the bus,
for the I/O area, dispatches to the I/O handler and then records
`written[a-0xFF00] = true`. -/
structure Memory where
  data : Nat → Nat
  ioWrittenTo : Nat → Bool

/-- The `Index<u16>` impl: reading a cell of the `u8` array.  The `% 256`
records that the array stores bytes. -/
def Memory.get (m : Memory) (address : Nat) : Nat :=
  m.data address % 256

/-- The `IndexMut<u16>` impl: storing a byte in the array. -/
def Memory.set (m : Memory) (address value : Nat) : Memory :=
  { m with data := Function.update m.data address value }

/-- `Memory::dma_transfer`: copy the 160 bytes at `source << 8` to OAM
(`0xFE00..0xFE9F`), sequentially as the source loop does. -/
def Memory.dmaTransfer (m : Memory) (sourceAddress : Nat) : Memory :=
  -- u16::from(source_address) << 8, with source_address : u8
  let address := (sourceAddress % 256) * 256
  (List.range 160).foldl
    (fun acc offset => acc.set (0xFE00 + offset) (acc.get (address + offset))) m

/-- `Memory::write_io`: writing `DIV` resets it to 0, writing `DMA`
starts a DMA transfer, any other I/O register stores verbatim. -/
def Memory.writeIo (m : Memory) (address data : Nat) : Memory :=
  if address = 0xFF04 then m.set 0xFF04 0
  else if address = 0xFF46 then m.dmaTransfer data
  else m.set address data

/-- `Memory::write_byte`: region policy of the bus.  ROM writes are
discarded, work-RAM writes are mirrored into echo RAM and vice versa,
I/O-area writes dispatch to `write_io` (and, modelled from the spec,
record the write-watch flag `written[a-0xFF00] = true` for the I/O
registers `0xFF00..0xFF7F`), all other writes store verbatim. -/
def Memory.writeByte (m : Memory) (address data : Nat) : Memory :=
  if address ≤ 0x7FFF then m
  else if 0xC000 ≤ address ∧ address ≤ 0xDDFF then
    (m.set (address + 0x2000) data).set address data
  else if 0xE000 ≤ address ∧ address ≤ 0xFDFF then
    (m.set (address - 0x2000) data).set address data
  else if 0xFF00 ≤ address then
    let m1 := m.writeIo address data
    -- Modelled from the spec: record the write-watch flag for the I/O area.
    if address ≤ 0xFF7F then
      { m1 with ioWrittenTo := Function.update m1.ioWrittenTo (address - 0xFF00) true }
    else m1
  else m.set address data

/-- `Memory::read_byte`: `P1` reads as 0xFF (no buttons pressed), all
other addresses read the stored byte. -/
def Memory.readByte (m : Memory) (address : Nat) : Nat :=
  if address = 0xFF00 then 0xFF else m.get address

/-- `Memory::read_word`: little-endian pair of `read_byte(a)` and
`read_byte(a + 1)`; the unchecked `u16` addition `a + 1` overflows at
`a = 0xFFFF`. -/
def Memory.readWord (m : Memory) (address : Nat) : Except EmuErr Nat :=
  if address + 1 ≤ 0xFFFF then
    .ok (m.readByte address + 256 * m.readByte (address + 1))
  else .error .addrOverflow

/-- `Memory::write_word`: write the two little-endian bytes of `data` to
`a` and `a + 1`; the unchecked `u16` addition `a + 1` overflows at
`a = 0xFFFF`. -/
def Memory.writeWord (m : Memory) (address data : Nat) : Except EmuErr Memory :=
  if address + 1 ≤ 0xFFFF then
    .ok ((m.writeByte address (data % 256)).writeByte (address + 1) (data / 256 % 256))
  else .error .addrOverflow

/-- A concrete all-zero memory used to instantiate hypotheses. -/
def memZero : Memory := ⟨fun _ => 0, fun _ => false⟩

/-- A concrete memory with `TIMA = 0xFF`, `TAC = 0x05`, `TMA = IF = 0`. -/
def memC7 : Memory :=
  ⟨fun a => if a = 0xFF05 then 0xFF else if a = 0xFF07 then 5 else 0,
    fun _ => false⟩

@[simp]
theorem Memory.get_set_same (m : Memory) (a v : Nat) : (m.set a v).get a = v % 256 := by
  simp [Memory.get, Memory.set]

@[simp]
theorem Memory.get_set_ne (m : Memory) {a b : Nat} (v : Nat) (h : b ≠ a) :
    (m.set a v).get b = m.get b := by
  simp [Memory.get, Memory.set, Function.update_noteq h]

@[simp]
theorem Memory.ioWrittenTo_set (m : Memory) (a v : Nat) :
    (m.set a v).ioWrittenTo = m.ioWrittenTo := rfl

@[simp]
theorem Memory.ioWrittenTo_dmaTransfer (m : Memory) (s : Nat) :
    (m.dmaTransfer s).ioWrittenTo = m.ioWrittenTo := by
  unfold Memory.dmaTransfer
  generalize List.range 160 = l
  induction l generalizing m with
  | nil => rfl
  | cons x xs ih => simpa using ih _

@[simp]
theorem Memory.ioWrittenTo_writeIo (m : Memory) (a v : Nat) :
    (m.writeIo a v).ioWrittenTo = m.ioWrittenTo := by
  unfold Memory.writeIo
  split <;> [skip; split] <;> simp

theorem Memory.get_lt (m : Memory) (a : Nat) : m.get a < 256 :=
  Nat.mod_lt _ (by norm_num)

@[simp]
theorem Memory.get_mod_256 (m : Memory) (a : Nat) : m.get a % 256 = m.get a :=
  Nat.mod_eq_of_lt (m.get_lt a)

theorem Memory.readByte_lt (m : Memory) (a : Nat) : m.readByte a < 256 := by
  unfold Memory.readByte Memory.get
  split
  · norm_num
  · exact Nat.mod_lt _ (by norm_num)

/-- C4: the work-RAM echo mirror.  For every `a ∈ [0xC000, 0xDDFF]` and
byte `v`, writing `v` through the bus at `a` or at `a + 0x2000` makes a
read at either address of the pair return `v`. -/
theorem workRam_echo_mirror (m : Memory) (a v : Nat)
    (h1 : 0xC000 ≤ a) (h2 : a ≤ 0xDDFF) (hv : v < 256) :
    ((m.writeByte a v).readByte a = v ∧
     (m.writeByte a v).readByte (a + 0x2000) = v) ∧
    ((m.writeByte (a + 0x2000) v).readByte a = v ∧
     (m.writeByte (a + 0x2000) v).readByte (a + 0x2000) = v) := by
  have hne : a ≠ a + 0x2000 := by omega
  have ha : a ≠ 0xFF00 := by omega
  have hb : a + 0x2000 ≠ 0xFF00 := by omega
  unfold Memory.writeByte
  rw [if_neg (by omega : ¬a ≤ 0x7FFF),
    if_pos (⟨h1, h2⟩ : 0xC000 ≤ a ∧ a ≤ 0xDDFF),
    if_neg (by omega : ¬a + 0x2000 ≤ 0x7FFF),
    if_neg (by omega : ¬(0xC000 ≤ a + 0x2000 ∧ a + 0x2000 ≤ 0xDDFF)),
    if_pos (by omega : 0xE000 ≤ a + 0x2000 ∧ a + 0x2000 ≤ 0xFDFF)]
  have h3 : a + 0x2000 - 0x2000 = a := by omega
  rw [h3]
  refine ⟨⟨?_, ?_⟩, ?_, ?_⟩ <;>
    simp [Memory.readByte, ha, hb, Memory.get_set_ne _ _ hne,
      Memory.get_set_ne _ _ hne.symm, Nat.mod_eq_of_lt hv]

/-- C4 witness. -/
theorem workRam_echo_mirror_witness :
    (0xC000 ≤ 0xC123 ∧ 0xC123 ≤ 0xDDFF ∧ (0x42 : Nat) < 256) ∧
    (memZero.writeByte 0xC123 0x42).readByte (0xC123 + 0x2000) = 0x42 :=
  ⟨by norm_num,
    (workRam_echo_mirror memZero 0xC123 0x42 (by norm_num) (by norm_num)
      (by norm_num)).1.2⟩

/-- C10: for `a < 0xFFFF`, `read_word` is the little-endian pair of the
two byte reads and `write_word` performs the two little-endian byte
writes; at `a = 0xFFFF` the unchecked address computation `a + 1`
overflows and both operations fail. -/
theorem word_ops_little_endian (m : Memory) (a v : Nat) (h : a < 0xFFFF) :
    (∃ w, m.readWord a = .ok w ∧
      w % 256 = m.readByte a ∧ w / 256 = m.readByte (a + 1)) ∧
    m.writeWord a v =
      .ok ((m.writeByte a (v % 256)).writeByte (a + 1) (v / 256 % 256)) ∧
    m.readWord 0xFFFF = .error .addrOverflow ∧
    m.writeWord 0xFFFF v = .error .addrOverflow := by
  have hlt := m.readByte_lt a
  refine ⟨⟨m.readByte a + 256 * m.readByte (a + 1), ?_, ?_, ?_⟩, ?_, ?_, ?_⟩
  · rw [Memory.readWord, if_pos (by omega)]
  · omega
  · omega
  · rw [Memory.writeWord, if_pos (by omega)]
  · rw [Memory.readWord, if_neg (by norm_num)]
  · rw [Memory.writeWord, if_neg (by norm_num)]

/-- C10 witness. -/
theorem word_ops_little_endian_witness :
    (0x8123 : Nat) < 0xFFFF ∧
    (∃ w, memZero.readWord 0x8123 = .ok w ∧
      w % 256 = memZero.readByte 0x8123 ∧ w / 256 = memZero.readByte 0x8124) :=
  ⟨by norm_num, (word_ops_little_endian memZero 0x8123 0xABCD (by norm_num)).1⟩

/-- C1: a bus write to an I/O address `0xFF00 + n` (`n ≤ 0x7F`) first
dispatches to the I/O handler `write_io` and then records the
write-watch flag `written[n] = true` (the byte-array effect is exactly
`write_io`'s, and the flag for `a - 0xFF00` is set). -/
theorem io_write_records_watch_flag (m : Memory) (a v : Nat)
    (h1 : 0xFF00 ≤ a) (h2 : a ≤ 0xFF7F) :
    (m.writeByte a v).data = (m.writeIo a v).data ∧
    (m.writeByte a v).ioWrittenTo (a - 0xFF00) = true := by
  unfold Memory.writeByte
  rw [if_neg (by omega : ¬a ≤ 0x7FFF),
    if_neg (by omega : ¬(0xC000 ≤ a ∧ a ≤ 0xDDFF)),
    if_neg (by omega : ¬(0xE000 ≤ a ∧ a ≤ 0xFDFF)),
    if_pos h1, if_pos h2]
  exact ⟨rfl, by simp⟩

/-- C1 witness. -/
theorem io_write_records_watch_flag_witness :
    (0xFF00 ≤ 0xFF14 ∧ 0xFF14 ≤ 0xFF7F) ∧
    (memZero.writeByte 0xFF14 0x80).ioWrittenTo (0xFF14 - 0xFF00) = true :=
  ⟨by norm_num,
    (io_write_records_watch_flag memZero 0xFF14 0x80 (by norm_num)
      (by norm_num)).2⟩

/-! ### Timer (`timer.rs`) -/

/-- `Timer`: the shared memory plus the two countdowns. -/
structure Timer where
  mem : Memory
  divCounter : Nat
  timerCounter : Nat

/-- First block of `Timer::tick`: when `div_counter` hits 0, increment
`DIV` (wrapping) and reload the counter to 64; then decrement. -/
def Timer.divStep (t : Timer) : Timer :=
  let t1 :=
    if t.divCounter = 0 then
      { t with mem := t.mem.set 0xFF04 ((t.mem.get 0xFF04 + 1) % 256),
               divCounter := 64 }
    else t
  { t1 with divCounter := t1.divCounter - 1 }

/-- Second block of `Timer::tick`: when `TAC.bit2` enables the timer and
`timer_counter` hits 0, increment `TIMA` with overflow handling (reload
from `TMA` and request the timer interrupt in `IF`), reload the counter
from the `TAC[1:0]` period, then decrement. -/
def Timer.timaStep (t : Timer) : Timer :=
  if t.mem.get 0xFF07 &&& 0x4 ≠ 0 then
    let t1 :=
      if t.timerCounter = 0 then
        let tima := t.mem.get 0xFF05
        let m1 :=
          if tima + 1 ≥ 256 then
            -- overflow: request timer interrupt, reload TIMA from TMA
            let mIF := t.mem.set 0xFF0F (t.mem.get 0xFF0F ||| 0x4)
            mIF.set 0xFF05 (mIF.get 0xFF06)
          else t.mem.set 0xFF05 ((tima + 1) % 256)
        let clockSpeed := m1.get 0xFF07 &&& 0x3
        -- the final source match arm is unreachable since the mask is 2 bits
        { t with
          mem := m1
          timerCounter :=
            if clockSpeed = 0 then 256
            else if clockSpeed = 1 then 4
            else if clockSpeed = 2 then 16
            else 64 }
      else t
    { t1 with timerCounter := t1.timerCounter - 1 }
  else t

/-- `Timer::tick`: the DIV block followed by the TIMA block. -/
def Timer.tick (t : Timer) : Timer :=
  t.divStep.timaStep

theorem Timer.divStep_get (t : Timer) (a : Nat) (ha : a ≠ 0xFF04) :
    t.divStep.mem.get a = t.mem.get a := by
  unfold Timer.divStep
  split <;> simp [Memory.get_set_ne _ _ ha]

@[simp]
theorem Timer.divStep_timerCounter (t : Timer) :
    t.divStep.timerCounter = t.timerCounter := by
  unfold Timer.divStep
  split <;> rfl

/-- A tick on which the timer counter has not yet expired only counts
down: memory away from `DIV` is untouched. -/
theorem Timer.tick_noexpire (t : Timer) (k : Nat)
    (h5 : t.mem.get 0xFF07 = 0x05) (htc : t.timerCounter = k + 1) :
    (Timer.tick t).timerCounter = k ∧
    ∀ a, a ≠ 0xFF04 → (Timer.tick t).mem.get a = t.mem.get a := by
  unfold Timer.tick Timer.timaStep
  rw [if_pos (by rw [t.divStep_get 0xFF07 (by norm_num), h5]; decide),
    if_neg (by rw [t.divStep_timerCounter, htc]; omega)]
  exact ⟨by simp [htc], fun a ha => t.divStep_get a ha⟩

/-- The tick on which the timer counter expires with `TIMA = 0xFF` and
`TAC = 0x05`: `TIMA` reloads from `TMA`, `IF.bit2` is requested, and the
counter reloads to `4 - 1`. -/
theorem Timer.tick_expire (t : Timer)
    (h5 : t.mem.get 0xFF07 = 0x05) (htc : t.timerCounter = 0)
    (hff : t.mem.get 0xFF05 = 0xFF) :
    (Timer.tick t).timerCounter = 3 ∧
    (Timer.tick t).mem.get 0xFF05 = t.mem.get 0xFF06 ∧
    (Timer.tick t).mem.get 0xFF06 = t.mem.get 0xFF06 ∧
    ((Timer.tick t).mem.get 0xFF0F).testBit 2 = true ∧
    (Timer.tick t).mem.get 0xFF07 = 0x05 := by
  have g7 := t.divStep_get 0xFF07 (by norm_num)
  have g5 := t.divStep_get 0xFF05 (by norm_num)
  have g6 := t.divStep_get 0xFF06 (by norm_num)
  have gF := t.divStep_get 0xFF0F (by norm_num)
  have hIFlt : t.mem.get 0xFF0F ||| 0x4 < 256 :=
    @Nat.or_lt_two_pow _ _ 8 (Memory.get_lt _ _) (by norm_num)
  unfold Timer.tick Timer.timaStep
  rw [if_pos (by rw [g7, h5]; decide),
    if_pos (by rw [t.divStep_timerCounter, htc])]
  simp only [g5, hff]
  norm_num [Memory.get_set_ne, g6, g7, gF, h5, Nat.testBit_or,
    Nat.mod_eq_of_lt hIFlt, show Nat.testBit 0x4 2 = true from rfl,
    show (5 : Nat) &&& 3 = 1 from rfl]

/-- Iterating `tick` while the timer counter has not expired counts it
down and leaves memory (away from `DIV`) untouched. -/
theorem Timer.preserve_iter (t : Timer) (j : Nat)
    (h5 : t.mem.get 0xFF07 = 0x05) (hj : j ≤ t.timerCounter) :
    (Timer.tick^[j] t).timerCounter = t.timerCounter - j ∧
    ∀ a, a ≠ 0xFF04 → (Timer.tick^[j] t).mem.get a = t.mem.get a := by
  induction j generalizing t with
  | zero => simp
  | succ j ih =>
    rw [Function.iterate_succ_apply]
    obtain ⟨hk, hmem⟩ := t.tick_noexpire (t.timerCounter - 1) h5 (by omega)
    obtain ⟨ihk, ihmem⟩ := ih (Timer.tick t)
      (by rw [hmem 0xFF07 (by norm_num)]; exact h5) (by omega)
    exact ⟨by omega, fun a ha => by rw [ihmem a ha, hmem a ha]⟩

/-- C7 (amended): from a state with `TIMA = 0xFF`, `TAC = 0x05` and
`timer_counter ∈ {1, 2, 3, 4}`, after 5 timer ticks the timer interrupt
`IF.bit2` is requested and `TIMA` equals `TMA`. -/
theorem timer_overflow_after_five_ticks (m : Memory) (dc tc : Nat)
    (hTima : m.get 0xFF05 = 0xFF) (hTac : m.get 0xFF07 = 0x05)
    (h1 : 1 ≤ tc) (h4 : tc ≤ 4) :
    (Timer.tick^[5] ⟨m, dc, tc⟩).mem.get 0xFF05 =
      (Timer.tick^[5] ⟨m, dc, tc⟩).mem.get 0xFF06 ∧
    ((Timer.tick^[5] ⟨m, dc, tc⟩).mem.get 0xFF0F).testBit 2 = true := by
  have hsplit : Timer.tick^[5] (⟨m, dc, tc⟩ : Timer) =
      Timer.tick^[4 - tc] (Timer.tick (Timer.tick^[tc] ⟨m, dc, tc⟩)) := by
    have h5eq : 4 - tc + (1 + tc) = 5 := by omega
    rw [← h5eq, Function.iterate_add_apply, Function.iterate_add_apply,
      Function.iterate_one]
  obtain ⟨hc1, hm1⟩ := Timer.preserve_iter ⟨m, dc, tc⟩ tc hTac le_rfl
  set s1 := Timer.tick^[tc] (⟨m, dc, tc⟩ : Timer) with hs1
  obtain ⟨hc2, h05, h06, hIF, h07⟩ := s1.tick_expire
    (by rw [hm1 0xFF07 (by norm_num)]; exact hTac) (by simp at hc1; omega)
    (by rw [hm1 0xFF05 (by norm_num)]; exact hTima)
  set s2 := Timer.tick s1 with hs2
  obtain ⟨hc3, hm3⟩ := s2.preserve_iter (4 - tc) h07 (by omega)
  rw [hsplit]
  refine ⟨?_, ?_⟩
  · rw [hm3 0xFF05 (by norm_num), hm3 0xFF06 (by norm_num), h05, h06]
  · rw [hm3 0xFF0F (by norm_num)]; exact hIF

/-- C7 witness for the amended theorem. -/
theorem timer_overflow_after_five_ticks_witness :
    (memC7.get 0xFF05 = 0xFF ∧ memC7.get 0xFF07 = 0x05 ∧ 1 ≤ 3 ∧ 3 ≤ 4) ∧
    ((Timer.tick^[5] ⟨memC7, 0, 3⟩).mem.get 0xFF05 =
      (Timer.tick^[5] ⟨memC7, 0, 3⟩).mem.get 0xFF06 ∧
     ((Timer.tick^[5] ⟨memC7, 0, 3⟩).mem.get 0xFF0F).testBit 2 = true) :=
  ⟨⟨by decide, by decide, by omega, by omega⟩,
    timer_overflow_after_five_ticks memC7 0 3 (by decide) (by decide)
      (by omega) (by omega)⟩

/-- C7 counterexample to the claim as stated: with `timer_counter = 0`
(also a state with `TIMA = 0xFF`, `TAC = 0x05`), the overflow happens on
the first tick and a second increment happens on the fifth, so after 5
ticks `TIMA = TMA + 1 ≠ TMA`. -/
theorem timer_overflow_counterexample :
    memC7.get 0xFF05 = 0xFF ∧ memC7.get 0xFF07 = 0x05 ∧
    (Timer.tick^[5] ⟨memC7, 0, 0⟩).mem.get 0xFF05 = 1 ∧
    (Timer.tick^[5] ⟨memC7, 0, 0⟩).mem.get 0xFF06 = 0 := by
  refine ⟨by decide, by decide, ?_, ?_⟩ <;> decide

/-! ### PPU (`video.rs`) -/

/-- The LCD mode enumeration. -/
inductive LCDMode where
  | hblank
  | vblank
  | oam
  | transfer

/-- `Video`: shared memory, RGB24 framebuffer bytes, and the two
mode/line countdowns. -/
structure Video where
  mem : Memory
  pixelData : Nat → Nat
  modeCounter : Nat
  lineCounter : Nat

/-- `Video::lcd_mode`: decode `STAT[1:0]`.  The source's unreachable
arm cannot fire since the mask is 2 bits. -/
def Video.lcdMode (v : Video) : LCDMode :=
  match v.mem.get 0xFF41 &&& 0x3 with
  | 0 => .hblank
  | 1 => .vblank
  | 2 => .oam
  | _ => .transfer

/-- `Video::shade_to_rgb`: 2-bit shade to 8-bit grey.  Shades are always
below 4, so the aborting arm of the source is unreachable. -/
def Video.shadeToRgb (shade : Nat) : Nat :=
  match shade with
  | 0 => 255
  | 1 => 170
  | 2 => 85
  | _ => 0

/-- `Video::render_line`: draw the background of line `LY` into the
framebuffer.  Only `pixel_data` is written; memory is read-only here. -/
def Video.renderLine (v : Video) : Video :=
  let y := v.mem.get 0xFF44
  if y < 144 then
    let lcdc := v.mem.get 0xFF40
    let td := if lcdc &&& 0x10 ≠ 0 then ((0x8000 : Nat), false)
      else (0x9000, true)
    let tileDataOrigin := td.1
    let signedTileIndices := td.2
    let bgTileMapOrigin := if lcdc &&& 0x8 ≠ 0 then 0x9C00 else 0x9800
    let scx := v.mem.get 0xFF43
    let scy := v.mem.get 0xFF42
    let scrolledY := (y + scy) % 256
    { v with
      pixelData := (List.range 160).foldl (fun pd x =>
        let scrolledX := (x + scx) % 256
        let tileX := scrolledX / 8
        let tileY := scrolledY / 8
        let tileOffset := tileY * 32 + tileX
        let inTileX := scrolledX % 8
        let inTileY := scrolledY % 8
        let tileIndex := v.mem.get (bgTileMapOrigin + tileOffset)
        -- signed indices: `0x9000 + i32::from(tile_index as i8) * 16`,
        -- truncated back to u16; `tile_index ≥ 128` means a negative i8
        let tileData :=
          if signedTileIndices then
            if tileIndex < 128 then tileDataOrigin + tileIndex * 16
            else tileDataOrigin + tileIndex * 16 - 4096
          else tileDataOrigin + tileIndex * 16
        let pixelLow := v.mem.get (tileData + inTileY * 2)
        let pixelHigh := v.mem.get (tileData + inTileY * 2 + 1)
        let mask := 0x80 >>> inTileX
        let bgp := v.mem.get 0xFF47
        let shade :=
          if pixelHigh &&& mask = 0 then
            if pixelLow &&& mask = 0 then bgp &&& 0x3
            else (bgp &&& 0xc) >>> 2
          else
            if pixelLow &&& mask = 0 then (bgp &&& 0x30) >>> 4
            else (bgp &&& 0xc0) >>> 6
        let pixelValue := Video.shadeToRgb shade
        let index := y * 480 + x * 3
        Function.update (Function.update (Function.update pd
          index pixelValue) (index + 1) pixelValue) (index + 2) pixelValue)
        v.pixelData }
  else v

/-- `Video::set_lcd_mode`: per-mode STAT-interrupt requests, mode
counter reload (and line render on Transfer entry), then the write of
the mode bits into `STAT[1:0]`. -/
def Video.setLcdMode (v : Video) (mode : LCDMode) : Video :=
  let v1 :=
    match mode with
    | .hblank =>
        let mem :=
          if v.mem.get 0xFF41 &&& 0x8 ≠ 0 then
            v.mem.set 0xFF0F (v.mem.get 0xFF0F ||| 0x2)
          else v.mem
        { v with mem := mem, modeCounter := 51 }
    | .vblank =>
        let mem :=
          if v.mem.get 0xFF41 &&& 0x10 ≠ 0 then
            v.mem.set 0xFF0F (v.mem.get 0xFF0F ||| 0x2)
          else v.mem
        let mem := mem.set 0xFF0F (mem.get 0xFF0F ||| 0x1)
        { v with mem := mem, modeCounter := 1140 }
    | .oam =>
        let mem :=
          if v.mem.get 0xFF41 &&& 0x20 ≠ 0 then
            v.mem.set 0xFF0F (v.mem.get 0xFF0F ||| 0x2)
          else v.mem
        { v with mem := mem, modeCounter := 20 }
    | .transfer =>
        let v' := v.renderLine
        { v' with modeCounter := 43 }
  let modeMask : Nat :=
    match mode with
    | .hblank => 0x0
    | .vblank => 0x1
    | .oam => 0x2
    | .transfer => 0x3
  { v1 with
    mem := v1.mem.set 0xFF41 ((v1.mem.get 0xFF41 &&& 0xfc) ||| modeMask) }

/-- First block of `Video::tick`: on scanline rollover advance `LY`
(the u8 addition wraps at 256 before the `% LY_MAX`), set the LYC
coincidence flag and possibly request the STAT interrupt, and reload
the line counter. -/
def Video.scanlinePhase (v : Video) : Video :=
  if v.lineCounter = 0 then
    let ly := v.mem.get 0xFF44
    let mem := v.mem.set 0xFF44 ((ly + 1) % 256 % 154)
    let mem :=
      if ly = mem.get 0xFF45 then
        let mem := mem.set 0xFF41 (mem.get 0xFF41 ||| 0x4)
        if mem.get 0xFF41 &&& 0x40 ≠ 0 then
          mem.set 0xFF0F (mem.get 0xFF0F ||| 0x2)
        else mem
      else mem
    { v with mem := mem, lineCounter := 114 }
  else v

/-- Second block of `Video::tick`: when the mode counter expires, step
the LCD mode state machine. -/
def Video.modePhase (v : Video) : Video :=
  if v.modeCounter = 0 then
    match v.lcdMode with
    | .hblank =>
        if v.mem.get 0xFF44 = 144 then v.setLcdMode .vblank
        else v.setLcdMode .oam
    | .vblank => v.setLcdMode .oam
    | .oam => v.setLcdMode .transfer
    | .transfer => v.setLcdMode .hblank
  else v

/-- `Video::tick`: the scanline block, the mode block, then both
countdowns decrement. -/
def Video.tick (v : Video) : Video :=
  let v2 := v.scanlinePhase.modePhase
  { v2 with
    modeCounter := v2.modeCounter - 1
    lineCounter := v2.lineCounter - 1 }

theorem Video.renderLine_mem (v : Video) : v.renderLine.mem = v.mem := by
  unfold Video.renderLine
  dsimp only
  split <;> rfl

/-- `set_lcd_mode` only writes the `IF` and `STAT` registers. -/
theorem Video.setLcdMode_get (v : Video) (mode : LCDMode) (a : Nat)
    (h1 : a ≠ 0xFF0F) (h2 : a ≠ 0xFF41) :
    (v.setLcdMode mode).mem.get a = v.mem.get a := by
  unfold Video.setLcdMode
  cases mode <;> dsimp only <;>
    first
    | (rw [Memory.get_set_ne _ _ h2, Video.renderLine_mem])
    | (split <;>
        simp [Memory.get_set_ne _ _ h1, Memory.get_set_ne _ _ h2])

/-- `modePhase` only writes the `IF` and `STAT` registers. -/
theorem Video.modePhase_get (v : Video) (a : Nat)
    (h1 : a ≠ 0xFF0F) (h2 : a ≠ 0xFF41) :
    v.modePhase.mem.get a = v.mem.get a := by
  unfold Video.modePhase
  split
  · split <;> first
      | (rw [Video.setLcdMode_get _ _ _ h1 h2])
      | (split <;> rw [Video.setLcdMode_get _ _ _ h1 h2])
  · rfl

/-- The value of `LY` after the scanline block. -/
theorem Video.scanlinePhase_LY (v : Video) :
    v.scanlinePhase.mem.get 0xFF44 =
      if v.lineCounter = 0 then (v.mem.get 0xFF44 + 1) % 256 % 154
      else v.mem.get 0xFF44 := by
  unfold Video.scanlinePhase
  split
  · dsimp only
    have hm : ((v.mem.get 0xFF44 + 1) % 256 % 154) % 256 =
        (v.mem.get 0xFF44 + 1) % 256 % 154 :=
      Nat.mod_eq_of_lt (lt_trans (Nat.mod_lt _ (by norm_num)) (by norm_num))
    split
    · split <;>
        simp [Memory.get_set_ne _ _ (by norm_num : (0xFF44 : Nat) ≠ 0xFF0F),
          Memory.get_set_ne _ _ (by norm_num : (0xFF44 : Nat) ≠ 0xFF41), hm]
    · simp [hm]
  · rfl

/-- C8 (amended): the PPU tick preserves `LY ∈ [0, 154)`, and the mode
bits `STAT[1:0]` are 2 bits wide hence always in `{0, 1, 2, 3}`; the
claim's quantification over arbitrary guest writes fails (see the
counterexample). -/
theorem ppu_ly_stat_invariant (v : Video) (h : v.mem.get 0xFF44 < 154) :
    (Video.tick v).mem.get 0xFF44 < 154 ∧
    (Video.tick v).mem.get 0xFF41 &&& 0x3 < 4 := by
  constructor
  · show (v.scanlinePhase.modePhase.mem.get 0xFF44) < 154
    rw [Video.modePhase_get _ _ (by norm_num) (by norm_num),
      Video.scanlinePhase_LY]
    split
    · exact Nat.mod_lt _ (by norm_num)
    · exact h
  · have h4 := Nat.and_lt_two_pow ((Video.tick v).mem.get 0xFF41)
      (show 3 < 2 ^ 2 by norm_num)
    simpa using h4

/-- C8 witness for the amended theorem. -/
theorem ppu_ly_stat_invariant_witness :
    memZero.get 0xFF44 < 154 ∧
    ((Video.tick ⟨memZero, fun _ => 0, 20, 114⟩).mem.get 0xFF44 < 154 ∧
     (Video.tick ⟨memZero, fun _ => 0, 20, 114⟩).mem.get 0xFF41 &&& 0x3 < 4) :=
  ⟨by decide, ppu_ly_stat_invariant ⟨memZero, fun _ => 0, 20, 114⟩ (by decide)⟩

/-- C8 counterexample to the claim as stated: a guest write through the
bus stores 200 into `LY` (0xFF44) verbatim, and a PPU tick in the middle
of a line leaves it there, so the reachable-state invariant
`LY ∈ [0, 154)` is violated. -/
theorem ppu_ly_counterexample :
    (memZero.writeByte 0xFF44 200).readByte 0xFF44 = 200 ∧
    (Video.tick ⟨memZero.writeByte 0xFF44 200, fun _ => 0, 5, 5⟩).mem.get
      0xFF44 = 200 ∧
    ¬(200 < 154) := by
  exact ⟨by decide, by decide, by norm_num⟩

/-! ### APU (`audio.rs`)

The floating-point parts of `Audio::tick` — the per-channel sample
values, the sample buffer handed to the host audio queue, and the
random noise bit — are not representable in this embedding and only
flow into the emitted samples; the integer channel/sequencer state,
which the claims are about, is embedded in full. -/

/-- `Audio`: the integer channel and sequencer state. -/
structure Audio where
  outputEnabled : Fin 4 → Bool
  lengthCounters : Fin 4 → Nat
  envelopeCounters : Fin 4 → Nat
  envelopeValues : Fin 4 → Nat
  frequencyTimers : Fin 4 → Nat
  waveformPositions : Fin 4 → Nat
  sampleBufferIndex : Nat
  decimationTimer : Nat
  frameTimer : Nat
  frameStep : Nat
  volumeTimer : Nat
  sweepTimer : Nat

/-- The `NRX1` address table. -/
def Audio.nrx1 (i : Fin 4) : Nat :=
  match i with
  | 0 => 0xFF11
  | 1 => 0xFF16
  | 2 => 0xFF1B
  | 3 => 0xFF20

/-- The `NRX2` address table. -/
def Audio.nrx2 (i : Fin 4) : Nat :=
  match i with
  | 0 => 0xFF12
  | 1 => 0xFF17
  | 2 => 0xFF1C
  | 3 => 0xFF21

/-- The `NRX3` address table. -/
def Audio.nrx3 (i : Fin 4) : Nat :=
  match i with
  | 0 => 0xFF13
  | 1 => 0xFF18
  | 2 => 0xFF1D
  | 3 => 0xFF22

/-- The `NRX4` address table. -/
def Audio.nrx4 (i : Fin 4) : Nat :=
  match i with
  | 0 => 0xFF14
  | 1 => 0xFF19
  | 2 => 0xFF1E
  | 3 => 0xFF23

/-- The 11-bit channel frequency, `u16::from_le_bytes([NRx3, NRx4 & 7])`. -/
def Audio.freq11 (m : Memory) (i : Fin 4) : Nat :=
  m.get (Audio.nrx3 i) + 256 * (m.get (Audio.nrx4 i) &&& 0x7)

/-- One iteration of the channel-restart loop at the top of
`Audio::tick`: consume the `NRx4` write-watch flag and, if bit 7 was
written, retrigger channel `i`. -/
def Audio.triggerStep (a : Audio) (m : Memory) (i : Fin 4) : Audio × Memory :=
  let ioAddress := Audio.nrx4 i &&& 0x00FF
  if m.ioWrittenTo ioAddress then
    let m := { m with ioWrittenTo := Function.update m.ioWrittenTo ioAddress false }
    if m.get (Audio.nrx4 i) &&& 0x80 ≠ 0 then
      let a := { a with outputEnabled := Function.update a.outputEnabled i true }
      let a :=
        if a.lengthCounters i = 0 then
          { a with lengthCounters := Function.update a.lengthCounters i 64 }
        else a
      let a := { a with
        frequencyTimers :=
          Function.update a.frequencyTimers i (2048 - Audio.freq11 m i) }
      let a := { a with
        envelopeCounters :=
          Function.update a.envelopeCounters i (m.get (Audio.nrx2 i) &&& 0x7) }
      let a := { a with
        envelopeValues :=
          Function.update a.envelopeValues i (m.get (Audio.nrx2 i) &&& 0xF0) }
      (a, m)
    else (a, m)
  else (a, m)

/-- One iteration of the length-counter reload loop: consume the `NRx1`
write-watch flag and reload the length counter (8 bits for the wave
channel, low 6 bits otherwise). -/
def Audio.lengthLoadStep (a : Audio) (m : Memory) (i : Fin 4) : Audio × Memory :=
  let ioAddress := Audio.nrx1 i &&& 0x00FF
  if m.ioWrittenTo ioAddress then
    let m := { m with ioWrittenTo := Function.update m.ioWrittenTo ioAddress false }
    if i = 2 then
      let lc := Function.update a.lengthCounters i (256 - m.get (Audio.nrx1 i))
      ({ a with lengthCounters := lc }, m)
    else
      let lc := Function.update a.lengthCounters i (64 - (m.get (Audio.nrx1 i) &&& 0x3F))
      ({ a with lengthCounters := lc }, m)
  else (a, m)

/-- One iteration of the length-counter clock inside the frame
sequencer: a channel with counter 0 has its output disabled, otherwise
the counter decrements when `NRx4.bit6` is set. -/
def Audio.lengthTickStep (a : Audio) (m : Memory) (i : Fin 4) : Audio :=
  if a.lengthCounters i = 0 then
    { a with outputEnabled := Function.update a.outputEnabled i false }
  else if m.get (Audio.nrx4 i) &&& 0x40 ≠ 0 then
    { a with lengthCounters :=
        Function.update a.lengthCounters i (a.lengthCounters i - 1) }
  else a

/-- One iteration of the envelope loop of sequencer step 7. -/
def Audio.envelopeTickStep (a : Audio) (m : Memory) (i : Fin 4) : Audio :=
  if a.envelopeCounters i = 0 then
    let stepLength := m.get (Audio.nrx2 i) &&& 0x7
    let a1 :=
      if stepLength ≠ 0 then
        if m.get (Audio.nrx2 i) &&& 0x8 = 0 then
          if 0 < a.envelopeValues i then
            { a with envelopeValues :=
                Function.update a.envelopeValues i (a.envelopeValues i - 1) }
          else a
        else
          if a.envelopeValues i < 0xF then
            { a with envelopeValues :=
                Function.update a.envelopeValues i (a.envelopeValues i + 1) }
          else a
      else a
    { a1 with envelopeCounters := Function.update a1.envelopeCounters i stepLength }
  else
    { a with envelopeCounters :=
        Function.update a.envelopeCounters i (a.envelopeCounters i - 1) }

/-- The 512 Hz frame sequencer block of `Audio::tick`.  Even steps clock
the length counters (and steps ≡ 2 mod 4 the sweep), step 7 clocks the
envelopes and resets the step to 0.  Note the source never increments
`frame_step` anywhere. -/
def Audio.frameSeqPhase (a : Audio) (m : Memory) : Audio :=
  if a.frameTimer = 0 then
    let a1 :=
      if a.frameStep % 2 = 0 then
        let a2 := (List.finRange 4).foldl (fun acc i => Audio.lengthTickStep acc m i) a
        if a.frameStep % 4 = 2 then { a2 with sweepTimer := a2.sweepTimer - 1 }
        else a2
      else if a.frameStep = 7 then
        let a2 := (([0, 1, 3] : List (Fin 4))).foldl
          (fun acc i => Audio.envelopeTickStep acc m i) a
        let a2 := { a2 with volumeTimer := a2.volumeTimer - 1 }
        { a2 with frameStep := 0 }
      else a
    { a1 with frameTimer := 2047 }
  else { a with frameTimer := a.frameTimer - 1 }

/-- The integer effects of one pulse-channel generator step
(`i ∈ {0, 1}`); the emitted sample is floating point and omitted. -/
def Audio.pulsePhaseStep (a : Audio) (m : Memory) (i : Fin 4) : Audio :=
  if a.frequencyTimers i ≠ 0 then
    { a with frequencyTimers :=
        Function.update a.frequencyTimers i (a.frequencyTimers i - 1) }
  else
    { a with
      frequencyTimers := Function.update a.frequencyTimers i (2048 - Audio.freq11 m i)
      waveformPositions :=
        Function.update a.waveformPositions i ((a.waveformPositions i + 1) % 8) }

/-- The integer effects of the wave-channel generator step (channel 2,
frequency timer halved, 32 positions); the emitted sample is floating
point and omitted. -/
def Audio.wavePhase (a : Audio) (m : Memory) : Audio :=
  if a.frequencyTimers 2 ≠ 0 then
    { a with frequencyTimers :=
        Function.update a.frequencyTimers 2 (a.frequencyTimers 2 - 1) }
  else
    { a with
      frequencyTimers :=
        Function.update a.frequencyTimers 2 ((2048 - Audio.freq11 m 2) / 2)
      waveformPositions :=
        Function.update a.waveformPositions 2 ((a.waveformPositions 2 + 1) % 32) }

/-- The integer effects of the decimation/output block; the mixed
sample written into the buffer is floating point and omitted. -/
def Audio.decimationPhase (a : Audio) : Audio :=
  if a.decimationTimer = 0 then
    { a with
      sampleBufferIndex := if a.sampleBufferIndex = 1023 then 0
        else a.sampleBufferIndex + 1
      decimationTimer := 15 }
  else { a with decimationTimer := a.decimationTimer - 1 }

/-- `Audio::tick`: trigger/length-reload flag consumption, the frame
sequencer, the channel generators, and the decimation counter.  The
noise channel's random sample has no integer state and is omitted. -/
def Audio.tick (a : Audio) (m : Memory) : Audio × Memory :=
  let p1 := (List.finRange 4).foldl (fun p i => Audio.triggerStep p.1 p.2 i) (a, m)
  let p2 := (List.finRange 4).foldl (fun p i => Audio.lengthLoadStep p.1 p.2 i) p1
  let a3 := Audio.frameSeqPhase p2.1 p2.2
  let a4 := (([0, 1] : List (Fin 4))).foldl
    (fun acc i => Audio.pulsePhaseStep acc p2.2 i) a3
  let a5 := Audio.wavePhase a4 p2.2
  let a6 := Audio.decimationPhase a5
  (a6, p2.2)

/-- `Audio::new`: all counters zero, `decimation_timer = 15`,
`frame_timer = 2047`, `frame_step = 0`. -/
def Audio.new : Audio :=
  { outputEnabled := fun _ => false
    lengthCounters := fun _ => 0
    envelopeCounters := fun _ => 0
    envelopeValues := fun _ => 0
    frequencyTimers := fun _ => 0
    waveformPositions := fun _ => 0
    sampleBufferIndex := 0
    decimationTimer := 15
    frameTimer := 2047
    frameStep := 0
    volumeTimer := 0
    sweepTimer := 0 }

theorem Audio.triggerStep_frameStep (a : Audio) (m : Memory) (i : Fin 4) :
    (Audio.triggerStep a m i).1.frameStep = a.frameStep := by
  unfold Audio.triggerStep
  dsimp only
  split
  · split
    · split <;> rfl
    · rfl
  · rfl

theorem Audio.lengthLoadStep_frameStep (a : Audio) (m : Memory) (i : Fin 4) :
    (Audio.lengthLoadStep a m i).1.frameStep = a.frameStep := by
  unfold Audio.lengthLoadStep
  dsimp only
  split
  · split <;> rfl
  · rfl

theorem Audio.foldl_pair_frameStep (l : List (Fin 4))
    (f : Audio × Memory → Fin 4 → Audio × Memory)
    (hf : ∀ p i, ((f p i).1).frameStep = (p.1).frameStep) (p : Audio × Memory) :
    ((l.foldl f p).1).frameStep = (p.1).frameStep := by
  induction l generalizing p with
  | nil => rfl
  | cons x xs ih => rw [List.foldl_cons, ih, hf]

theorem Audio.foldl_audio_frameStep (l : List (Fin 4))
    (f : Audio → Fin 4 → Audio)
    (hf : ∀ a i, (f a i).frameStep = a.frameStep) (a : Audio) :
    (l.foldl f a).frameStep = a.frameStep := by
  induction l generalizing a with
  | nil => rfl
  | cons x xs ih => rw [List.foldl_cons, ih, hf]

theorem Audio.lengthTickStep_frameStep (a : Audio) (m : Memory) (i : Fin 4) :
    (Audio.lengthTickStep a m i).frameStep = a.frameStep := by
  unfold Audio.lengthTickStep
  split
  · rfl
  · split <;> rfl

/-- On sequencer step 0 the frame sequencer leaves `frame_step` at 0:
the even-step branch never writes it and the step-7 branch is not
taken. -/
theorem Audio.frameSeqPhase_frameStep (a : Audio) (m : Memory)
    (h : a.frameStep = 0) : (Audio.frameSeqPhase a m).frameStep = 0 := by
  unfold Audio.frameSeqPhase
  rw [h]
  norm_num [Audio.foldl_audio_frameStep _ _ (Audio.lengthTickStep_frameStep · m), h]
  split <;> rfl

theorem Audio.pulsePhaseStep_frameStep (a : Audio) (m : Memory) (i : Fin 4) :
    (Audio.pulsePhaseStep a m i).frameStep = a.frameStep := by
  unfold Audio.pulsePhaseStep
  split <;> rfl

theorem Audio.wavePhase_frameStep (a : Audio) (m : Memory) :
    (Audio.wavePhase a m).frameStep = a.frameStep := by
  unfold Audio.wavePhase
  split <;> rfl

theorem Audio.decimationPhase_frameStep (a : Audio) :
    (Audio.decimationPhase a).frameStep = a.frameStep := by
  unfold Audio.decimationPhase
  split <;> rfl

/-- A full APU tick keeps `frame_step` at 0. -/
theorem Audio.tick_frameStep (a : Audio) (m : Memory) (h : a.frameStep = 0) :
    (Audio.tick a m).1.frameStep = 0 := by
  unfold Audio.tick
  dsimp only
  rw [Audio.decimationPhase_frameStep, Audio.wavePhase_frameStep,
    Audio.foldl_audio_frameStep _ _ (fun a i => Audio.pulsePhaseStep_frameStep a _ i)]
  refine Audio.frameSeqPhase_frameStep _ _ ?_
  rw [Audio.foldl_pair_frameStep _ _ (fun p i => Audio.lengthLoadStep_frameStep p.1 p.2 i),
    Audio.foldl_pair_frameStep _ _ (fun p i => Audio.triggerStep_frameStep p.1 p.2 i)]
  exact h

/-- C9: the frame sequencer never advances.  Starting from `Audio::new`
(`frame_step = 0`), after any number of machine-cycle ticks against any
memory trace `frame_step` is still 0, so the 8-step cycle of the claim
never progresses past step 0 — in particular the step-7 envelope tick
for channels 1, 2, 4 is unreachable (the source never increments
`frame_step`). -/
theorem frame_sequencer_never_advances (m : Memory) (n : Nat) :
    ((fun p : Audio × Memory => Audio.tick p.1 p.2)^[n] (Audio.new, m)).1.frameStep
      = 0 := by
  have key : ∀ (k : Nat) (p : Audio × Memory), p.1.frameStep = 0 →
      ((fun p : Audio × Memory => Audio.tick p.1 p.2)^[k] p).1.frameStep = 0 := by
    intro k
    induction k with
    | zero => intro p hp; simpa using hp
    | succ k ih =>
        intro p hp
        rw [Function.iterate_succ_apply]
        exact ih _ (Audio.tick_frameStep p.1 p.2 hp)
  exact key n (Audio.new, m) rfl

/-! ### CPU registers and flags (`cpu/registers.rs`)

The provided `registers.rs`/`operands.rs` are an older revision than
`cpu.rs`/`instructions.rs` (they lack the `AF`/`PC` word registers,
`Indirect::SP`, and the `Source`/`Target` traits those files use); the
missing pieces are modelled from the spec's data model and operand
model. -/

/-- The four flag bits of `F` and the bitflags operations on them. -/
def Flags.Z : Nat := 0x80

def Flags.N : Nat := 0x40

def Flags.H : Nat := 0x20

def Flags.C : Nat := 0x10

/-- `Flags::from_bits_truncate`: only bits 7–4 are kept. -/
def Flags.truncate (f : Nat) : Nat := f &&& 0xF0

/-- `flags.remove(mask)`. -/
def Flags.remove (f mask : Nat) : Nat := f &&& (0xFF ^^^ mask)

/-- `flags.insert(mask)`. -/
def Flags.insert (f mask : Nat) : Nat := f ||| mask

/-- `flags.set(mask, b)`. -/
def Flags.set (f mask : Nat) (b : Bool) : Nat :=
  if b then Flags.insert f mask else Flags.remove f mask

inductive ByteReg where
  | A | B | C | D | E | H | L
  deriving DecidableEq

/-- Word registers; `AF` and `PC` are modelled from the spec (the
provided `registers.rs` predates them but `cpu.rs` uses them). -/
inductive WordReg where
  | BC | DE | HL | SP | AF | PC
  deriving DecidableEq

/-- The register file. -/
structure Registers where
  a : Nat
  f : Nat
  b : Nat
  c : Nat
  d : Nat
  e : Nat
  h : Nat
  l : Nat
  sp : Nat
  pc : Nat

/-- `Registers::new`: the post-boot state. -/
def Registers.new : Registers :=
  { a := 0x01, f := 0xB0, b := 0x00, c := 0x13, d := 0x00, e := 0xD8,
    h := 0x01, l := 0x4D, sp := 0xFFFE, pc := 0x0100 }

def Registers.bc (r : Registers) : Nat := r.c + 256 * r.b

def Registers.de (r : Registers) : Nat := r.e + 256 * r.d

def Registers.hl (r : Registers) : Nat := r.l + 256 * r.h

/-- `AF` pairing, high byte `A`, low byte `F` (modelled from the spec). -/
def Registers.af (r : Registers) : Nat := r.f + 256 * r.a

def Registers.setBc (r : Registers) (v : Nat) : Registers :=
  { r with c := v % 256, b := v / 256 % 256 }

def Registers.setDe (r : Registers) (v : Nat) : Registers :=
  { r with e := v % 256, d := v / 256 % 256 }

def Registers.setHl (r : Registers) (v : Nat) : Registers :=
  { r with l := v % 256, h := v / 256 % 256 }

def Registers.setAf (r : Registers) (v : Nat) : Registers :=
  { r with f := v % 256, a := v / 256 % 256 }

def Registers.flags (r : Registers) : Nat := Flags.truncate r.f

def Registers.setFlags (r : Registers) (flags : Nat) : Registers :=
  { r with f := flags }

def Registers.zFlag (r : Registers) : Bool := r.flags &&& Flags.Z ≠ 0

def Registers.nFlag (r : Registers) : Bool := r.flags &&& Flags.N ≠ 0

def Registers.hFlag (r : Registers) : Bool := r.flags &&& Flags.H ≠ 0

def Registers.cFlag (r : Registers) : Bool := r.flags &&& Flags.C ≠ 0

def Registers.byteRegister (r : Registers) (reg : ByteReg) : Nat :=
  match reg with
  | .A => r.a
  | .B => r.b
  | .C => r.c
  | .D => r.d
  | .E => r.e
  | .H => r.h
  | .L => r.l

def Registers.setByteRegister (r : Registers) (reg : ByteReg) (v : Nat) :
    Registers :=
  match reg with
  | .A => { r with a := v }
  | .B => { r with b := v }
  | .C => { r with c := v }
  | .D => { r with d := v }
  | .E => { r with e := v }
  | .H => { r with h := v }
  | .L => { r with l := v }

def Registers.wordRegister (r : Registers) (reg : WordReg) : Nat :=
  match reg with
  | .BC => r.bc
  | .DE => r.de
  | .HL => r.hl
  | .SP => r.sp
  | .AF => r.af
  | .PC => r.pc

def Registers.setWordRegister (r : Registers) (reg : WordReg) (v : Nat) :
    Registers :=
  match reg with
  | .BC => r.setBc v
  | .DE => r.setDe v
  | .HL => r.setHl v
  | .SP => { r with sp := v }
  | .AF => r.setAf v
  | .PC => { r with pc := v }

/-! ### CPU state and operands (`cpu.rs`, `cpu/operands.rs`) -/

inductive CPUMode where
  | halted
  | run

/-- The CPU state (the instruction-trace string and the debug-print
flag of the source are display-only and omitted). -/
structure CPU where
  reg : Registers
  ime : Bool
  mode : CPUMode
  cyclesUntilDone : Nat
  mem : Memory

def CPU.new (m : Memory) : CPU :=
  { reg := Registers.new, ime := false, mode := .run,
    cyclesUntilDone := 0, mem := m }

def CPU.addCycles (cpu : CPU) (n : Nat) : CPU :=
  { cpu with cyclesUntilDone := cpu.cyclesUntilDone + n }

/-- `ReadImmediate<u8>`: one cycle, read the byte at `PC`, then the
checked `pc += 1`. -/
def CPU.fetchByte (cpu : CPU) : Except EmuErr (Nat × CPU) :=
  if cpu.reg.pc + 1 ≤ 0xFFFF then
    .ok (cpu.mem.readByte cpu.reg.pc,
      { cpu with
        reg := { cpu.reg with pc := cpu.reg.pc + 1 }
        cyclesUntilDone := cpu.cyclesUntilDone + 1 })
  else .error .addrOverflow

/-- `ReadImmediate<u16>`: two cycles, read the word at `PC`, then the
checked `pc += 2`. -/
def CPU.fetchWord (cpu : CPU) : Except EmuErr (Nat × CPU) := do
  let data ← cpu.mem.readWord cpu.reg.pc
  if cpu.reg.pc + 2 ≤ 0xFFFF then
    .ok (data,
      { cpu with
        reg := { cpu.reg with pc := cpu.reg.pc + 2 }
        cyclesUntilDone := cpu.cyclesUntilDone + 2 })
  else .error .addrOverflow

/-- The pointer-indirect addressing modes (`Indirect`); `SP` is the
variant `instructions.rs` uses for push/pop (modelled from the spec). -/
inductive Ind where
  | bc | de | hl | highC | sp

def Ind.address (i : Ind) (cpu : CPU) : Nat :=
  match i with
  | .bc => cpu.reg.bc
  | .de => cpu.reg.de
  | .hl => cpu.reg.hl
  | .highC => 0xFF00 + cpu.reg.c
  | .sp => cpu.reg.sp

/-- Readable-and-writable 8-bit operands (`Source<u8> + Target<u8>`):
registers, pointer indirections, and the pre-fetched
`IndirectImmediate` / `IndirectHighImmediate` addresses. -/
inductive Operand8 where
  | reg (r : ByteReg)
  | ind (i : Ind)
  | indImm (address : Nat)
  | indHighImm (n : Nat)

/-- 8-bit sources (`Source<u8>`): an operand or a pre-fetched
immediate. -/
inductive Source8 where
  | op (o : Operand8)
  | imm (n : Nat)

/-- Operand read: registers are free, every memory byte costs one
cycle (`ReadMem<u8>`). -/
def Operand8.read (o : Operand8) (cpu : CPU) : Nat × CPU :=
  match o with
  | .reg r => (cpu.reg.byteRegister r, cpu)
  | .ind i => (cpu.mem.readByte (i.address cpu), cpu.addCycles 1)
  | .indImm a => (cpu.mem.readByte a, cpu.addCycles 1)
  | .indHighImm n => (cpu.mem.readByte (0xFF00 + n), cpu.addCycles 1)

/-- Operand write: registers are free, every memory byte costs one
cycle (`WriteMem<u8>`) and goes through the bus. -/
def Operand8.write (o : Operand8) (v : Nat) (cpu : CPU) : CPU :=
  match o with
  | .reg r => { cpu with reg := cpu.reg.setByteRegister r v }
  | .ind i => { (cpu.addCycles 1) with mem := cpu.mem.writeByte (i.address cpu) v }
  | .indImm a => { (cpu.addCycles 1) with mem := cpu.mem.writeByte a v }
  | .indHighImm n =>
      { (cpu.addCycles 1) with mem := cpu.mem.writeByte (0xFF00 + n) v }

def Source8.read (s : Source8) (cpu : CPU) : Nat × CPU :=
  match s with
  | .op o => o.read cpu
  | .imm n => (n, cpu)

/-- Readable-and-writable 16-bit operands. -/
inductive Operand16 where
  | reg (r : WordReg)
  | ind (i : Ind)
  | indImm (address : Nat)

/-- 16-bit sources. -/
inductive Source16 where
  | op (o : Operand16)
  | imm (n : Nat)

/-- 16-bit operand read: registers are free, memory words cost two
cycles (`ReadMem<u16>`) and can hit the checked `a + 1`. -/
def Operand16.read (o : Operand16) (cpu : CPU) : Except EmuErr (Nat × CPU) :=
  match o with
  | .reg r => .ok (cpu.reg.wordRegister r, cpu)
  | .ind i => do
      let w ← cpu.mem.readWord (i.address cpu)
      .ok (w, cpu.addCycles 2)
  | .indImm a => do
      let w ← cpu.mem.readWord a
      .ok (w, cpu.addCycles 2)

/-- 16-bit operand write (`WriteMem<u16>`). -/
def Operand16.write (o : Operand16) (v : Nat) (cpu : CPU) :
    Except EmuErr CPU :=
  match o with
  | .reg r => .ok { cpu with reg := cpu.reg.setWordRegister r v }
  | .ind i => do
      let m ← cpu.mem.writeWord (i.address cpu) v
      .ok { (cpu.addCycles 2) with mem := m }
  | .indImm a => do
      let m ← cpu.mem.writeWord a v
      .ok { (cpu.addCycles 2) with mem := m }

def Source16.read (s : Source16) (cpu : CPU) : Except EmuErr (Nat × CPU) :=
  match s with
  | .op o => o.read cpu
  | .imm n => .ok (n, cpu)

/-! ### Instructions (`cpu/instructions.rs`) -/

inductive Condition where
  | unconditional
  | zero (flag : Bool)
  | carry (flag : Bool)

def Condition.isSatisfied (c : Condition) (cpu : CPU) : Bool :=
  match c with
  | .unconditional => true
  | .zero flag => cpu.reg.zFlag == flag
  | .carry flag => cpu.reg.cFlag == flag

/-- NOP. -/
def CPU.noOperation (cpu : CPU) : CPU := cpu

/-- JP. -/
def CPU.jump (word : Source16) (cond : Condition) (cpu : CPU) :
    Except EmuErr CPU := do
  let (address, cpu) ← word.read cpu
  if cond.isSatisfied cpu then
    .ok { (cpu.addCycles 1) with reg := { cpu.reg with pc := address } }
  else .ok cpu

/-- JR: the immediate is reinterpreted as `i8`, added in 32 bits and
truncated back to u16. -/
def CPU.jumpRelative (cond : Condition) (cpu : CPU) : Except EmuErr CPU := do
  let (n, cpu) ← cpu.fetchByte
  let offset : Int := if n < 128 then (n : Int) else (n : Int) - 256
  if cond.isSatisfied cpu then
    let cpu := cpu.addCycles 1
    .ok { cpu with reg :=
      { cpu.reg with pc := (((cpu.reg.pc : Int) + offset).emod 65536).toNat } }
  else .ok cpu

/-- ADD (8-bit).  The half-carry flag is absent in the source (its
FIXME notes `H is wrong`). -/
def CPU.addByte (byte : Source8) (cpu : CPU) : CPU :=
  let p := byte.read cpu
  let v := p.1
  let cpu := p.2
  let sum := (cpu.reg.a + v) % 256
  let overflow := 256 ≤ cpu.reg.a + v
  let cpu := { cpu with reg := { cpu.reg with a := sum } }
  let flags := if cpu.reg.a = 0 then Flags.Z else 0
  let flags := if overflow then Flags.insert flags Flags.C else flags
  { cpu with reg := cpu.reg.setFlags flags }

/-- ADD (16-bit); the half-carry is `set(H, false)` in the source
(FIXME noted there). -/
def CPU.addWord (target : Operand16) (source : Source16) (cpu : CPU) :
    Except EmuErr CPU := do
  let (s, cpu) ← source.read cpu
  let (t, cpu) ← target.read cpu
  let sum := (s + t) % 65536
  let overflow := 65536 ≤ s + t
  let cpu ← target.write sum cpu
  let flags := Flags.set (Flags.set (Flags.remove cpu.reg.flags Flags.N)
    Flags.H false) Flags.C overflow
  .ok { cpu with reg := cpu.reg.setFlags flags }

/-- AND.  The source sets `N` (not `H` as the hardware does) on the
result: kept faithful. -/
def CPU.and (byte : Source8) (cpu : CPU) : CPU :=
  let p := byte.read cpu
  let cpu := p.2
  let cpu := { cpu with reg := { cpu.reg with a := cpu.reg.a &&& p.1 } }
  let flags := if cpu.reg.a = 0 then Flags.Z ||| Flags.N else Flags.N
  { cpu with reg := cpu.reg.setFlags flags }

/-- OR. -/
def CPU.or (byte : Source8) (cpu : CPU) : CPU :=
  let p := byte.read cpu
  let cpu := p.2
  let cpu := { cpu with reg := { cpu.reg with a := cpu.reg.a ||| p.1 } }
  let flags := if cpu.reg.a = 0 then Flags.Z else 0
  { cpu with reg := cpu.reg.setFlags flags }

/-- XOR. -/
def CPU.xor (byte : Source8) (cpu : CPU) : CPU :=
  let p := byte.read cpu
  let cpu := p.2
  let cpu := { cpu with reg := { cpu.reg with a := cpu.reg.a ^^^ p.1 } }
  let flags := if cpu.reg.a = 0 then Flags.Z else 0
  { cpu with reg := cpu.reg.setFlags flags }

/-- CP; the half-carry is `set(H, false)` in the source (FIXME noted). -/
def CPU.compare (byte : Source8) (cpu : CPU) : CPU :=
  let p := byte.read cpu
  let data := p.1
  let cpu := p.2
  let flags := Flags.set (Flags.set (Flags.insert
    (Flags.set cpu.reg.flags Flags.Z (cpu.reg.a == data)) Flags.N)
    Flags.H false) Flags.C (decide (cpu.reg.a < data))
  { cpu with reg := cpu.reg.setFlags flags }

/-- LD (8-bit). -/
def CPU.load8 (target : Operand8) (source : Source8) (cpu : CPU) : CPU :=
  let p := source.read cpu
  target.write p.1 p.2

/-- LD (16-bit). -/
def CPU.load16 (target : Operand16) (source : Source16) (cpu : CPU) :
    Except EmuErr CPU := do
  let (data, cpu) ← source.read cpu
  target.write data cpu

/-- DEC (8-bit), `wrapping_sub(1)`. -/
def CPU.decrementByte (data : Operand8) (cpu : CPU) : CPU :=
  let p := data.read cpu
  let result := (p.1 + 255) % 256
  let cpu := data.write result p.2
  let flags := Flags.set (Flags.insert
    (Flags.set cpu.reg.flags Flags.Z (result == 0)) Flags.N)
    Flags.H ((result &&& 0x0F) == 0x0F)
  { cpu with reg := cpu.reg.setFlags flags }

/-- DEC (16-bit), `wrapping_sub(1)`, one extra cycle, flags untouched. -/
def CPU.decrementWord (data : Operand16) (cpu : CPU) : Except EmuErr CPU := do
  let (v, cpu) ← data.read cpu
  let cpu ← data.write ((v + 65535) % 65536) cpu
  .ok (cpu.addCycles 1)

/-- LDD. -/
def CPU.loadAndDecrementHl (target : Operand8) (source : Source8)
    (cpu : CPU) : Except EmuErr CPU := do
  let cpu := CPU.load8 target source cpu
  let cpu ← CPU.decrementWord (.reg .HL) cpu
  .ok { cpu with cyclesUntilDone := cpu.cyclesUntilDone - 1 }

/-- INC (8-bit), `wrapping_add(1)`; `trailing_zeros() >= 4` on the u8
result is the low nibble being zero. -/
def CPU.incrementByte (data : Operand8) (cpu : CPU) : CPU :=
  let p := data.read cpu
  let result := (p.1 + 1) % 256
  let cpu := data.write result p.2
  let flags := Flags.set (Flags.remove
    (Flags.set cpu.reg.flags Flags.Z (result == 0)) Flags.N)
    Flags.H ((result &&& 0x0F) == 0)
  { cpu with reg := cpu.reg.setFlags flags }

/-- INC (16-bit), `wrapping_add(1)`, one extra cycle, flags untouched. -/
def CPU.incrementWord (data : Operand16) (cpu : CPU) : Except EmuErr CPU := do
  let (v, cpu) ← data.read cpu
  let cpu ← data.write ((v + 1) % 65536) cpu
  .ok (cpu.addCycles 1)

/-- LDI. -/
def CPU.loadAndIncrementHl (target : Operand8) (source : Source8)
    (cpu : CPU) : Except EmuErr CPU := do
  let cpu := CPU.load8 target source cpu
  let cpu ← CPU.incrementWord (.reg .HL) cpu
  .ok { cpu with cyclesUntilDone := cpu.cyclesUntilDone - 1 }

/-- HALT is `unimplemented!()` in the source: it aborts. -/
def CPU.halt (_cpu : CPU) : Except EmuErr CPU := .error .haltNotImplemented

/-- DI. -/
def CPU.disableInterrupts (cpu : CPU) : CPU := { cpu with ime := false }

/-- EI. -/
def CPU.enableInterrupts (cpu : CPU) : CPU := { cpu with ime := true }

/-- PUSH: `sp = sp.wrapping_sub(2)` then a word store at `(SP)`. -/
def CPU.push (source : Source16) (cpu : CPU) : Except EmuErr CPU :=
  let cpu := { cpu with reg :=
    { cpu.reg with sp := (cpu.reg.sp + 65534) % 65536 } }
  CPU.load16 (.ind .sp) source cpu

/-- POP: a word load from `(SP)` then `sp = sp.wrapping_add(2)`. -/
def CPU.pop (target : Operand16) (cpu : CPU) : Except EmuErr CPU := do
  let cpu ← CPU.load16 target (.op (.ind .sp)) cpu
  .ok { cpu with reg := { cpu.reg with sp := (cpu.reg.sp + 2) % 65536 } }

/-- CALL. -/
def CPU.call (word : Source16) (cond : Condition) (cpu : CPU) :
    Except EmuErr CPU := do
  let (address, cpu) ← word.read cpu
  if cond.isSatisfied cpu then
    let cpu ← CPU.push (.op (.reg .PC)) cpu
    .ok { (cpu.addCycles 1) with reg := { cpu.reg with pc := address } }
  else .ok cpu

/-- RST. -/
def CPU.restart (address : Nat) (cpu : CPU) : Except EmuErr CPU := do
  let cpu ← CPU.push (.op (.reg .PC)) cpu
  .ok { (cpu.addCycles 1) with reg := { cpu.reg with pc := address } }

/-- RET (`r#return` in the source). -/
def CPU.ret (cond : Condition) (cpu : CPU) : Except EmuErr CPU :=
  if cond.isSatisfied cpu then do
    let cpu ← CPU.pop (.reg .PC) cpu
    .ok (cpu.addCycles 1)
  else .ok cpu

/-- RETI. -/
def CPU.returnAndEnableInterrupts (cpu : CPU) : Except EmuErr CPU := do
  let cpu ← CPU.ret .unconditional cpu
  .ok (CPU.enableInterrupts cpu)

/-- CPL (`complement_a`): u8 bitwise not. -/
def CPU.complementA (cpu : CPU) : CPU :=
  let cpu := { cpu with reg := { cpu.reg with a := cpu.reg.a ^^^ 0xFF } }
  let flags := Flags.insert (Flags.insert cpu.reg.flags Flags.N) Flags.H
  { cpu with reg := cpu.reg.setFlags flags }

/-- SWAP: the source recombines the nibbles with `&` (its FIXME notes
`|` would be correct), and sets only Z (on zero result). -/
def CPU.swap (data : Operand8) (cpu : CPU) : CPU :=
  let p := data.read cpu
  let byte := p.1
  let lowNibble := byte &&& 0x0F
  let highNibble := byte &&& 0xF0
  let swapped := (lowNibble <<< 4) &&& (highNibble >>> 4)
  let cpu := data.write swapped p.2
  let flags := if swapped = 0 then Flags.Z else 0
  { cpu with reg := cpu.reg.setFlags flags }

/-- BIT. -/
def CPU.testBit (targetBit : Nat) (data : Operand8) (cpu : CPU) : CPU :=
  let p := data.read cpu
  let cpu := p.2
  let mask := 1 <<< targetBit
  let flags := Flags.insert (Flags.remove
    (Flags.set cpu.reg.flags Flags.Z ((p.1 &&& mask) == 0)) Flags.N) Flags.H
  { cpu with reg := cpu.reg.setFlags flags }

/-- RES: mask is the u8 complement `!(1 << bit)`. -/
def CPU.resetBit (targetBit : Nat) (data : Operand8) (cpu : CPU) : CPU :=
  let p := data.read cpu
  let mask := 0xFF ^^^ (1 <<< targetBit)
  data.write (p.1 &&& mask) p.2

/-- SET. -/
def CPU.setBit (targetBit : Nat) (data : Operand8) (cpu : CPU) : CPU :=
  let p := data.read cpu
  data.write (p.1 ||| (1 <<< targetBit)) p.2

/-- SLA: `overflowing_shl(1)` on u8 shifts and reports overflow only
for shift amounts ≥ 8, so the carry is always cleared here. -/
def CPU.shiftLeft (data : Operand8) (cpu : CPU) : CPU :=
  let p := data.read cpu
  let byte := (p.1 <<< 1) % 256
  let cpu := data.write byte p.2
  let flags := Flags.set (if byte = 0 then Flags.Z else 0) Flags.C false
  { cpu with reg := cpu.reg.setFlags flags }

/-- Modelled from the spec: `add_with_carry` (ADC) is called by `cpu.rs`
but missing from the provided `instructions.rs`.  Per the spec, ADC sets
Z on zero result, H on carry from bit 3, C on carry from bit 7, and
clears N. -/
def CPU.addWithCarry (byte : Source8) (cpu : CPU) : CPU :=
  let p := byte.read cpu
  let v := p.1
  let cpu := p.2
  let carry := if cpu.reg.cFlag then 1 else 0
  let sum := (cpu.reg.a + v + carry) % 256
  let halfCarry := 0x10 ≤ (cpu.reg.a &&& 0x0F) + (v &&& 0x0F) + carry
  let overflow := 256 ≤ cpu.reg.a + v + carry
  let cpu := { cpu with reg := { cpu.reg with a := sum } }
  let flags := (if sum = 0 then Flags.Z else 0) |||
    (if halfCarry then Flags.H else 0) ||| (if overflow then Flags.C else 0)
  { cpu with reg := cpu.reg.setFlags flags }

/-- Modelled from the spec: `rotate_left` (RLC) is called by `cpu.rs`
but missing from the provided `instructions.rs`; rotates set C from the
ejected bit and Z from the result, clearing N and H. -/
def CPU.rotateLeft (data : Operand8) (cpu : CPU) : CPU :=
  let p := data.read cpu
  let v := p.1
  let result := ((v <<< 1) ||| (v >>> 7)) % 256
  let cpu := data.write result p.2
  let flags := (if result = 0 then Flags.Z else 0) |||
    (if v &&& 0x80 ≠ 0 then Flags.C else 0)
  { cpu with reg := cpu.reg.setFlags flags }

/-- Modelled from the spec: `rotate_left_through_carry` (RL), as
`rotate_left` but rotating through the carry flag. -/
def CPU.rotateLeftThroughCarry (data : Operand8) (cpu : CPU) : CPU :=
  let p := data.read cpu
  let v := p.1
  let cpu := p.2
  let result := ((v <<< 1) ||| (if cpu.reg.cFlag then 1 else 0)) % 256
  let cpu := data.write result cpu
  let flags := (if result = 0 then Flags.Z else 0) |||
    (if v &&& 0x80 ≠ 0 then Flags.C else 0)
  { cpu with reg := cpu.reg.setFlags flags }

/-- Modelled from the spec: `rotate_right` (RRC). -/
def CPU.rotateRight (data : Operand8) (cpu : CPU) : CPU :=
  let p := data.read cpu
  let v := p.1
  let result := (v >>> 1) ||| ((v &&& 1) <<< 7)
  let cpu := data.write result p.2
  let flags := (if result = 0 then Flags.Z else 0) |||
    (if v &&& 1 ≠ 0 then Flags.C else 0)
  { cpu with reg := cpu.reg.setFlags flags }

/-- Modelled from the spec: `rotate_right_through_carry` (RR). -/
def CPU.rotateRightThroughCarry (data : Operand8) (cpu : CPU) : CPU :=
  let p := data.read cpu
  let v := p.1
  let cpu := p.2
  let result := (v >>> 1) ||| (if cpu.reg.cFlag then 0x80 else 0)
  let cpu := data.write result cpu
  let flags := (if result = 0 then Flags.Z else 0) |||
    (if v &&& 1 ≠ 0 then Flags.C else 0)
  { cpu with reg := cpu.reg.setFlags flags }

/-- Modelled from the spec: `shift_right` (SRL). -/
def CPU.shiftRight (data : Operand8) (cpu : CPU) : CPU :=
  let p := data.read cpu
  let v := p.1
  let result := v >>> 1
  let cpu := data.write result p.2
  let flags := (if result = 0 then Flags.Z else 0) |||
    (if v &&& 1 ≠ 0 then Flags.C else 0)
  { cpu with reg := cpu.reg.setFlags flags }

/-- Modelled from the spec: `shift_right_keep_msb` (SRA). -/
def CPU.shiftRightKeepMsb (data : Operand8) (cpu : CPU) : CPU :=
  let p := data.read cpu
  let v := p.1
  let result := (v >>> 1) ||| (v &&& 0x80)
  let cpu := data.write result p.2
  let flags := (if result = 0 then Flags.Z else 0) |||
    (if v &&& 1 ≠ 0 then Flags.C else 0)
  { cpu with reg := cpu.reg.setFlags flags }

/-! ### Decode (`cpu.rs`) -/

/-- `CPU::select_load_or_halt`: decode the 0x40–0x7F `LD r,r` block;
operand bits 6 select `(HL)`, and target = source = `(HL)` is HALT.
The decode matches' aborting arms are unreachable (3-bit fields). -/
def CPU.selectLoadOrHalt (opcode : Nat) (cpu : CPU) : Except EmuErr CPU :=
  let sourceBits := opcode &&& 0x7
  let source : Option ByteReg :=
    match sourceBits with
    | 0x0 => some .B
    | 0x1 => some .C
    | 0x2 => some .D
    | 0x3 => some .E
    | 0x4 => some .H
    | 0x5 => some .L
    | 0x6 => none
    | _ => some .A
  let targetBits := (opcode &&& 0x38) >>> 3
  let target : Option ByteReg :=
    match targetBits with
    | 0x0 => some .B
    | 0x1 => some .C
    | 0x2 => some .D
    | 0x3 => some .E
    | 0x4 => some .H
    | 0x5 => some .L
    | 0x6 => none
    | _ => some .A
  match target, source with
  | some t, some s => .ok (CPU.load8 (.reg t) (.op (.reg s)) cpu)
  | some t, none => .ok (CPU.load8 (.reg t) (.op (.ind .hl)) cpu)
  | none, some s => .ok (CPU.load8 (.ind .hl) (.op (.reg s)) cpu)
  | none, none => CPU.halt cpu

/-- `CPU::select_test_bit` (CB 0x40–0x7F). -/
def CPU.selectTestBit (opcode : Nat) (cpu : CPU) : CPU :=
  let targetBits := opcode &&& 0x7
  let target : Option ByteReg :=
    match targetBits with
    | 0x0 => some .B
    | 0x1 => some .C
    | 0x2 => some .D
    | 0x3 => some .E
    | 0x4 => some .H
    | 0x5 => some .L
    | 0x6 => none
    | _ => some .A
  let targetBit := (opcode &&& 0x38) >>> 3
  match target with
  | some r => CPU.testBit targetBit (.reg r) cpu
  | none => CPU.testBit targetBit (.ind .hl) cpu

/-- `CPU::select_reset_bit` (CB 0x80–0xBF). -/
def CPU.selectResetBit (opcode : Nat) (cpu : CPU) : CPU :=
  let targetBits := opcode &&& 0x7
  let target : Option ByteReg :=
    match targetBits with
    | 0x0 => some .B
    | 0x1 => some .C
    | 0x2 => some .D
    | 0x3 => some .E
    | 0x4 => some .H
    | 0x5 => some .L
    | 0x6 => none
    | _ => some .A
  let targetBit := (opcode &&& 0x38) >>> 3
  match target with
  | some r => CPU.resetBit targetBit (.reg r) cpu
  | none => CPU.resetBit targetBit (.ind .hl) cpu

/-- `CPU::select_set_bit` (CB 0xC0–0xFF). -/
def CPU.selectSetBit (opcode : Nat) (cpu : CPU) : CPU :=
  let targetBits := opcode &&& 0x7
  let target : Option ByteReg :=
    match targetBits with
    | 0x0 => some .B
    | 0x1 => some .C
    | 0x2 => some .D
    | 0x3 => some .E
    | 0x4 => some .H
    | 0x5 => some .L
    | 0x6 => none
    | _ => some .A
  let targetBit := (opcode &&& 0x38) >>> 3
  match target with
  | some r => CPU.setBit targetBit (.reg r) cpu
  | none => CPU.setBit targetBit (.ind .hl) cpu

/-- The `CB`-prefix decode table (`CPU::execute_cb`), after the inner
opcode fetch. -/
def CPU.decodeCB (opcode : Nat) (cpu : CPU) : Except EmuErr CPU :=
  if opcode = 0x00 then .ok (CPU.rotateLeft (.reg .B) cpu)
  else if opcode = 0x01 then .ok (CPU.rotateLeft (.reg .C) cpu)
  else if opcode = 0x02 then .ok (CPU.rotateLeft (.reg .D) cpu)
  else if opcode = 0x03 then .ok (CPU.rotateLeft (.reg .E) cpu)
  else if opcode = 0x04 then .ok (CPU.rotateLeft (.reg .H) cpu)
  else if opcode = 0x05 then .ok (CPU.rotateLeft (.reg .L) cpu)
  else if opcode = 0x06 then .ok (CPU.rotateLeft (.ind .hl) cpu)
  else if opcode = 0x07 then .ok (CPU.rotateLeft (.reg .A) cpu)
  else if opcode = 0x08 then .ok (CPU.rotateRight (.reg .B) cpu)
  else if opcode = 0x09 then .ok (CPU.rotateRight (.reg .C) cpu)
  else if opcode = 0x0A then .ok (CPU.rotateRight (.reg .D) cpu)
  else if opcode = 0x0B then .ok (CPU.rotateRight (.reg .E) cpu)
  else if opcode = 0x0C then .ok (CPU.rotateRight (.reg .H) cpu)
  else if opcode = 0x0D then .ok (CPU.rotateRight (.reg .L) cpu)
  else if opcode = 0x0E then .ok (CPU.rotateRight (.ind .hl) cpu)
  else if opcode = 0x0F then .ok (CPU.rotateRight (.reg .A) cpu)
  else if opcode = 0x10 then .ok (CPU.rotateLeftThroughCarry (.reg .B) cpu)
  else if opcode = 0x11 then .ok (CPU.rotateLeftThroughCarry (.reg .C) cpu)
  else if opcode = 0x12 then .ok (CPU.rotateLeftThroughCarry (.reg .D) cpu)
  else if opcode = 0x13 then .ok (CPU.rotateLeftThroughCarry (.reg .E) cpu)
  else if opcode = 0x14 then .ok (CPU.rotateLeftThroughCarry (.reg .H) cpu)
  else if opcode = 0x15 then .ok (CPU.rotateLeftThroughCarry (.reg .L) cpu)
  else if opcode = 0x16 then .ok (CPU.rotateLeftThroughCarry (.ind .hl) cpu)
  else if opcode = 0x17 then .ok (CPU.rotateLeftThroughCarry (.reg .A) cpu)
  else if opcode = 0x18 then .ok (CPU.rotateRightThroughCarry (.reg .B) cpu)
  else if opcode = 0x19 then .ok (CPU.rotateRightThroughCarry (.reg .C) cpu)
  else if opcode = 0x1A then .ok (CPU.rotateRightThroughCarry (.reg .D) cpu)
  else if opcode = 0x1B then .ok (CPU.rotateRightThroughCarry (.reg .E) cpu)
  else if opcode = 0x1C then .ok (CPU.rotateRightThroughCarry (.reg .H) cpu)
  else if opcode = 0x1D then .ok (CPU.rotateRightThroughCarry (.reg .L) cpu)
  else if opcode = 0x1E then .ok (CPU.rotateRightThroughCarry (.ind .hl) cpu)
  else if opcode = 0x1F then .ok (CPU.rotateRightThroughCarry (.reg .A) cpu)
  else if opcode = 0x20 then .ok (CPU.shiftLeft (.reg .B) cpu)
  else if opcode = 0x21 then .ok (CPU.shiftLeft (.reg .C) cpu)
  else if opcode = 0x22 then .ok (CPU.shiftLeft (.reg .D) cpu)
  else if opcode = 0x23 then .ok (CPU.shiftLeft (.reg .E) cpu)
  else if opcode = 0x24 then .ok (CPU.shiftLeft (.reg .H) cpu)
  else if opcode = 0x25 then .ok (CPU.shiftLeft (.reg .L) cpu)
  else if opcode = 0x26 then .ok (CPU.shiftLeft (.ind .hl) cpu)
  else if opcode = 0x27 then .ok (CPU.shiftLeft (.reg .A) cpu)
  else if opcode = 0x28 then .ok (CPU.shiftRightKeepMsb (.reg .B) cpu)
  else if opcode = 0x29 then .ok (CPU.shiftRightKeepMsb (.reg .C) cpu)
  else if opcode = 0x2A then .ok (CPU.shiftRightKeepMsb (.reg .D) cpu)
  else if opcode = 0x2B then .ok (CPU.shiftRightKeepMsb (.reg .E) cpu)
  else if opcode = 0x2C then .ok (CPU.shiftRightKeepMsb (.reg .H) cpu)
  else if opcode = 0x2D then .ok (CPU.shiftRightKeepMsb (.reg .L) cpu)
  else if opcode = 0x2E then .ok (CPU.shiftRightKeepMsb (.ind .hl) cpu)
  else if opcode = 0x2F then .ok (CPU.shiftRightKeepMsb (.reg .A) cpu)
  else if opcode = 0x30 then .ok (CPU.swap (.reg .B) cpu)
  else if opcode = 0x31 then .ok (CPU.swap (.reg .C) cpu)
  else if opcode = 0x32 then .ok (CPU.swap (.reg .D) cpu)
  else if opcode = 0x33 then .ok (CPU.swap (.reg .E) cpu)
  else if opcode = 0x34 then .ok (CPU.swap (.reg .H) cpu)
  else if opcode = 0x35 then .ok (CPU.swap (.reg .L) cpu)
  else if opcode = 0x36 then .ok (CPU.swap (.ind .hl) cpu)
  else if opcode = 0x37 then .ok (CPU.swap (.reg .A) cpu)
  else if opcode = 0x38 then .ok (CPU.shiftRight (.reg .B) cpu)
  else if opcode = 0x39 then .ok (CPU.shiftRight (.reg .C) cpu)
  else if opcode = 0x3A then .ok (CPU.shiftRight (.reg .D) cpu)
  else if opcode = 0x3B then .ok (CPU.shiftRight (.reg .E) cpu)
  else if opcode = 0x3C then .ok (CPU.shiftRight (.reg .H) cpu)
  else if opcode = 0x3D then .ok (CPU.shiftRight (.reg .L) cpu)
  else if opcode = 0x3E then .ok (CPU.shiftRight (.ind .hl) cpu)
  else if opcode = 0x3F then .ok (CPU.shiftRight (.reg .A) cpu)
  else if opcode ≤ 0x7F then .ok (CPU.selectTestBit opcode cpu)
  else if opcode ≤ 0xBF then .ok (CPU.selectResetBit opcode cpu)
  else .ok (CPU.selectSetBit opcode cpu)

/-- `CPU::execute_cb`: fetch the second opcode byte, then the CB table. -/
def CPU.executeCB (cpu : CPU) : Except EmuErr CPU := do
  let (opcode, cpu) ← cpu.fetchByte
  CPU.decodeCB opcode cpu

set_option maxRecDepth 4096

/-- The unprefixed decode table of `CPU::execute`, after the opcode
fetch; opcodes with no arm (among them all of SUB/SBC at 0x90–0x9F)
fall to the `Unimplemented opcode` error. -/
def CPU.decodeExecute (opcode : Nat) (cpu : CPU) : Except EmuErr CPU :=
  if opcode = 0x00 then .ok (CPU.noOperation cpu)
  else if opcode = 0x01 then do
    let (imm, cpu) ← cpu.fetchWord
    CPU.load16 (.reg .BC) (.imm imm) cpu
  else if opcode = 0x02 then .ok (CPU.load8 (.ind .bc) (.op (.reg .A)) cpu)
  else if opcode = 0x03 then CPU.incrementWord (.reg .BC) cpu
  else if opcode = 0x04 then .ok (CPU.incrementByte (.reg .B) cpu)
  else if opcode = 0x05 then .ok (CPU.decrementByte (.reg .B) cpu)
  else if opcode = 0x06 then do
    let (imm, cpu) ← cpu.fetchByte
    .ok (CPU.load8 (.reg .B) (.imm imm) cpu)
  else if opcode = 0x07 then .ok (CPU.rotateLeft (.reg .A) cpu)
  else if opcode = 0x08 then do
    let (address, cpu) ← cpu.fetchWord
    CPU.load16 (.indImm address) (.op (.reg .SP)) cpu
  else if opcode = 0x09 then CPU.addWord (.reg .HL) (.op (.reg .BC)) cpu
  else if opcode = 0x0A then .ok (CPU.load8 (.reg .A) (.op (.ind .bc)) cpu)
  else if opcode = 0x0B then CPU.decrementWord (.reg .BC) cpu
  else if opcode = 0x0C then .ok (CPU.incrementByte (.reg .C) cpu)
  else if opcode = 0x0D then .ok (CPU.decrementByte (.reg .C) cpu)
  else if opcode = 0x0E then do
    let (imm, cpu) ← cpu.fetchByte
    .ok (CPU.load8 (.reg .C) (.imm imm) cpu)
  else if opcode = 0x0F then .ok (CPU.rotateRight (.reg .A) cpu)
  else if opcode = 0x11 then do
    let (imm, cpu) ← cpu.fetchWord
    CPU.load16 (.reg .DE) (.imm imm) cpu
  else if opcode = 0x12 then .ok (CPU.load8 (.ind .de) (.op (.reg .A)) cpu)
  else if opcode = 0x13 then CPU.incrementWord (.reg .DE) cpu
  else if opcode = 0x14 then .ok (CPU.incrementByte (.reg .D) cpu)
  else if opcode = 0x15 then .ok (CPU.decrementByte (.reg .D) cpu)
  else if opcode = 0x16 then do
    let (imm, cpu) ← cpu.fetchByte
    .ok (CPU.load8 (.reg .D) (.imm imm) cpu)
  else if opcode = 0x17 then .ok (CPU.rotateLeftThroughCarry (.reg .A) cpu)
  else if opcode = 0x18 then CPU.jumpRelative .unconditional cpu
  else if opcode = 0x19 then CPU.addWord (.reg .HL) (.op (.reg .DE)) cpu
  else if opcode = 0x1A then .ok (CPU.load8 (.reg .A) (.op (.ind .de)) cpu)
  else if opcode = 0x1B then CPU.decrementWord (.reg .DE) cpu
  else if opcode = 0x1C then .ok (CPU.incrementByte (.reg .E) cpu)
  else if opcode = 0x1D then .ok (CPU.decrementByte (.reg .E) cpu)
  else if opcode = 0x1E then do
    let (imm, cpu) ← cpu.fetchByte
    .ok (CPU.load8 (.reg .E) (.imm imm) cpu)
  else if opcode = 0x1F then .ok (CPU.rotateRightThroughCarry (.reg .A) cpu)
  else if opcode = 0x20 then CPU.jumpRelative (.zero false) cpu
  else if opcode = 0x21 then do
    let (imm, cpu) ← cpu.fetchWord
    CPU.load16 (.reg .HL) (.imm imm) cpu
  else if opcode = 0x22 then
    CPU.loadAndIncrementHl (.ind .hl) (.op (.reg .A)) cpu
  else if opcode = 0x23 then CPU.incrementWord (.reg .HL) cpu
  else if opcode = 0x24 then .ok (CPU.incrementByte (.reg .H) cpu)
  else if opcode = 0x25 then .ok (CPU.decrementByte (.reg .H) cpu)
  else if opcode = 0x26 then do
    let (imm, cpu) ← cpu.fetchByte
    .ok (CPU.load8 (.reg .H) (.imm imm) cpu)
  else if opcode = 0x28 then CPU.jumpRelative (.zero true) cpu
  else if opcode = 0x29 then CPU.addWord (.reg .HL) (.op (.reg .HL)) cpu
  else if opcode = 0x2A then
    CPU.loadAndIncrementHl (.reg .A) (.op (.ind .hl)) cpu
  else if opcode = 0x2B then CPU.decrementWord (.reg .HL) cpu
  else if opcode = 0x2C then .ok (CPU.incrementByte (.reg .L) cpu)
  else if opcode = 0x2D then .ok (CPU.decrementByte (.reg .L) cpu)
  else if opcode = 0x2E then do
    let (imm, cpu) ← cpu.fetchByte
    .ok (CPU.load8 (.reg .L) (.imm imm) cpu)
  else if opcode = 0x2F then .ok (CPU.complementA cpu)
  else if opcode = 0x30 then CPU.jumpRelative (.carry false) cpu
  else if opcode = 0x31 then do
    let (imm, cpu) ← cpu.fetchWord
    CPU.load16 (.reg .SP) (.imm imm) cpu
  else if opcode = 0x32 then
    CPU.loadAndDecrementHl (.ind .hl) (.op (.reg .A)) cpu
  else if opcode = 0x33 then CPU.incrementWord (.reg .SP) cpu
  else if opcode = 0x34 then .ok (CPU.incrementByte (.ind .hl) cpu)
  else if opcode = 0x35 then .ok (CPU.decrementByte (.ind .hl) cpu)
  else if opcode = 0x36 then do
    let (imm, cpu) ← cpu.fetchByte
    .ok (CPU.load8 (.ind .hl) (.imm imm) cpu)
  else if opcode = 0x38 then CPU.jumpRelative (.carry true) cpu
  else if opcode = 0x39 then CPU.addWord (.reg .HL) (.op (.reg .SP)) cpu
  else if opcode = 0x3A then
    CPU.loadAndDecrementHl (.reg .A) (.op (.ind .hl)) cpu
  else if opcode = 0x3B then CPU.decrementWord (.reg .SP) cpu
  else if opcode = 0x3C then .ok (CPU.incrementByte (.reg .A) cpu)
  else if opcode = 0x3D then .ok (CPU.decrementByte (.reg .A) cpu)
  else if opcode = 0x3E then do
    let (imm, cpu) ← cpu.fetchByte
    .ok (CPU.load8 (.reg .A) (.imm imm) cpu)
  else if 0x40 ≤ opcode ∧ opcode ≤ 0x7F then CPU.selectLoadOrHalt opcode cpu
  else if opcode = 0x80 then .ok (CPU.addByte (.op (.reg .B)) cpu)
  else if opcode = 0x81 then .ok (CPU.addByte (.op (.reg .C)) cpu)
  else if opcode = 0x82 then .ok (CPU.addByte (.op (.reg .D)) cpu)
  else if opcode = 0x83 then .ok (CPU.addByte (.op (.reg .E)) cpu)
  else if opcode = 0x84 then .ok (CPU.addByte (.op (.reg .H)) cpu)
  else if opcode = 0x85 then .ok (CPU.addByte (.op (.reg .L)) cpu)
  else if opcode = 0x86 then .ok (CPU.addByte (.op (.ind .hl)) cpu)
  else if opcode = 0x87 then .ok (CPU.addByte (.op (.reg .A)) cpu)
  else if opcode = 0x88 then .ok (CPU.addWithCarry (.op (.reg .B)) cpu)
  else if opcode = 0x89 then .ok (CPU.addWithCarry (.op (.reg .C)) cpu)
  else if opcode = 0x8A then .ok (CPU.addWithCarry (.op (.reg .D)) cpu)
  else if opcode = 0x8B then .ok (CPU.addWithCarry (.op (.reg .E)) cpu)
  else if opcode = 0x8C then .ok (CPU.addWithCarry (.op (.reg .H)) cpu)
  else if opcode = 0x8D then .ok (CPU.addWithCarry (.op (.reg .L)) cpu)
  else if opcode = 0x8E then .ok (CPU.addWithCarry (.op (.ind .hl)) cpu)
  else if opcode = 0x8F then .ok (CPU.addWithCarry (.op (.reg .A)) cpu)
  else if opcode = 0xA0 then .ok (CPU.and (.op (.reg .B)) cpu)
  else if opcode = 0xA1 then .ok (CPU.and (.op (.reg .C)) cpu)
  else if opcode = 0xA2 then .ok (CPU.and (.op (.reg .D)) cpu)
  else if opcode = 0xA3 then .ok (CPU.and (.op (.reg .E)) cpu)
  else if opcode = 0xA4 then .ok (CPU.and (.op (.reg .H)) cpu)
  else if opcode = 0xA5 then .ok (CPU.and (.op (.reg .L)) cpu)
  else if opcode = 0xA6 then .ok (CPU.and (.op (.ind .hl)) cpu)
  else if opcode = 0xA7 then .ok (CPU.and (.op (.reg .A)) cpu)
  else if opcode = 0xA8 then .ok (CPU.xor (.op (.reg .B)) cpu)
  else if opcode = 0xA9 then .ok (CPU.xor (.op (.reg .C)) cpu)
  else if opcode = 0xAA then .ok (CPU.xor (.op (.reg .D)) cpu)
  else if opcode = 0xAB then .ok (CPU.xor (.op (.reg .E)) cpu)
  else if opcode = 0xAC then .ok (CPU.xor (.op (.reg .H)) cpu)
  else if opcode = 0xAD then .ok (CPU.xor (.op (.reg .L)) cpu)
  else if opcode = 0xAE then .ok (CPU.xor (.op (.ind .hl)) cpu)
  else if opcode = 0xAF then .ok (CPU.xor (.op (.reg .A)) cpu)
  else if opcode = 0xB0 then .ok (CPU.or (.op (.reg .B)) cpu)
  else if opcode = 0xB1 then .ok (CPU.or (.op (.reg .C)) cpu)
  else if opcode = 0xB2 then .ok (CPU.or (.op (.reg .D)) cpu)
  else if opcode = 0xB3 then .ok (CPU.or (.op (.reg .E)) cpu)
  else if opcode = 0xB4 then .ok (CPU.or (.op (.reg .H)) cpu)
  else if opcode = 0xB5 then .ok (CPU.or (.op (.reg .L)) cpu)
  else if opcode = 0xB6 then .ok (CPU.or (.op (.ind .hl)) cpu)
  else if opcode = 0xB7 then .ok (CPU.or (.op (.reg .A)) cpu)
  else if opcode = 0xB8 then .ok (CPU.compare (.op (.reg .B)) cpu)
  else if opcode = 0xB9 then .ok (CPU.compare (.op (.reg .C)) cpu)
  else if opcode = 0xBA then .ok (CPU.compare (.op (.reg .D)) cpu)
  else if opcode = 0xBB then .ok (CPU.compare (.op (.reg .E)) cpu)
  else if opcode = 0xBC then .ok (CPU.compare (.op (.reg .H)) cpu)
  else if opcode = 0xBD then .ok (CPU.compare (.op (.reg .L)) cpu)
  else if opcode = 0xBE then .ok (CPU.compare (.op (.ind .hl)) cpu)
  else if opcode = 0xBF then .ok (CPU.compare (.op (.reg .A)) cpu)
  else if opcode = 0xC0 then CPU.ret (.zero false) cpu
  else if opcode = 0xC1 then CPU.pop (.reg .BC) cpu
  else if opcode = 0xC2 then do
    let (imm, cpu) ← cpu.fetchWord
    CPU.jump (.imm imm) (.zero false) cpu
  else if opcode = 0xC3 then do
    let (imm, cpu) ← cpu.fetchWord
    CPU.jump (.imm imm) .unconditional cpu
  else if opcode = 0xC4 then do
    let (imm, cpu) ← cpu.fetchWord
    CPU.call (.imm imm) (.zero false) cpu
  else if opcode = 0xC5 then CPU.push (.op (.reg .BC)) cpu
  else if opcode = 0xC6 then do
    let (imm, cpu) ← cpu.fetchByte
    .ok (CPU.addByte (.imm imm) cpu)
  else if opcode = 0xC7 then CPU.restart 0x00 cpu
  else if opcode = 0xC8 then CPU.ret (.zero true) cpu
  else if opcode = 0xC9 then CPU.ret .unconditional cpu
  else if opcode = 0xCA then do
    let (imm, cpu) ← cpu.fetchWord
    CPU.jump (.imm imm) (.zero true) cpu
  else if opcode = 0xCB then CPU.executeCB cpu
  else if opcode = 0xCC then do
    let (imm, cpu) ← cpu.fetchWord
    CPU.call (.imm imm) (.zero true) cpu
  else if opcode = 0xCD then do
    let (imm, cpu) ← cpu.fetchWord
    CPU.call (.imm imm) .unconditional cpu
  else if opcode = 0xCE then do
    let (imm, cpu) ← cpu.fetchByte
    .ok (CPU.addWithCarry (.imm imm) cpu)
  else if opcode = 0xCF then CPU.restart 0x08 cpu
  else if opcode = 0xD0 then CPU.ret (.carry false) cpu
  else if opcode = 0xD1 then CPU.pop (.reg .DE) cpu
  else if opcode = 0xD2 then do
    let (imm, cpu) ← cpu.fetchWord
    CPU.jump (.imm imm) (.carry false) cpu
  else if opcode = 0xD4 then do
    let (imm, cpu) ← cpu.fetchWord
    CPU.call (.imm imm) (.carry false) cpu
  else if opcode = 0xD5 then CPU.push (.op (.reg .DE)) cpu
  else if opcode = 0xD7 then CPU.restart 0x10 cpu
  else if opcode = 0xD8 then CPU.ret (.carry true) cpu
  else if opcode = 0xD9 then CPU.returnAndEnableInterrupts cpu
  else if opcode = 0xDA then do
    let (imm, cpu) ← cpu.fetchWord
    CPU.jump (.imm imm) (.carry true) cpu
  else if opcode = 0xDC then do
    let (imm, cpu) ← cpu.fetchWord
    CPU.call (.imm imm) (.carry true) cpu
  else if opcode = 0xDF then CPU.restart 0x18 cpu
  else if opcode = 0xE0 then do
    let (n, cpu) ← cpu.fetchByte
    .ok (CPU.load8 (.indHighImm n) (.op (.reg .A)) cpu)
  else if opcode = 0xE1 then CPU.pop (.reg .HL) cpu
  else if opcode = 0xE2 then .ok (CPU.load8 (.ind .highC) (.op (.reg .A)) cpu)
  else if opcode = 0xE5 then CPU.push (.op (.reg .HL)) cpu
  else if opcode = 0xE6 then do
    let (imm, cpu) ← cpu.fetchByte
    .ok (CPU.and (.imm imm) cpu)
  else if opcode = 0xE7 then CPU.restart 0x20 cpu
  else if opcode = 0xE9 then do
    let cpu ← CPU.jump (.op (.reg .HL)) .unconditional cpu
    .ok { cpu with cyclesUntilDone := cpu.cyclesUntilDone - 1 }
  else if opcode = 0xEA then do
    let (address, cpu) ← cpu.fetchWord
    .ok (CPU.load8 (.indImm address) (.op (.reg .A)) cpu)
  else if opcode = 0xEE then do
    let (imm, cpu) ← cpu.fetchByte
    .ok (CPU.xor (.imm imm) cpu)
  else if opcode = 0xEF then CPU.restart 0x28 cpu
  else if opcode = 0xF0 then do
    let (n, cpu) ← cpu.fetchByte
    .ok (CPU.load8 (.reg .A) (.op (.indHighImm n)) cpu)
  else if opcode = 0xF1 then CPU.pop (.reg .AF) cpu
  else if opcode = 0xF2 then .ok (CPU.load8 (.reg .A) (.op (.ind .highC)) cpu)
  else if opcode = 0xF3 then .ok (CPU.disableInterrupts cpu)
  else if opcode = 0xF5 then CPU.push (.op (.reg .AF)) cpu
  else if opcode = 0xF6 then do
    let (imm, cpu) ← cpu.fetchByte
    .ok (CPU.or (.imm imm) cpu)
  else if opcode = 0xF7 then CPU.restart 0x30 cpu
  else if opcode = 0xF9 then do
    let cpu ← CPU.load16 (.reg .SP) (.op (.reg .HL)) cpu
    .ok (cpu.addCycles 1)
  else if opcode = 0xFA then do
    let (address, cpu) ← cpu.fetchWord
    .ok (CPU.load8 (.reg .A) (.op (.indImm address)) cpu)
  else if opcode = 0xFB then .ok (CPU.enableInterrupts cpu)
  else if opcode = 0xFE then do
    let (imm, cpu) ← cpu.fetchByte
    .ok (CPU.compare (.imm imm) cpu)
  else if opcode = 0xFF then CPU.restart 0x38 cpu
  else .error (.unimplementedOpcode opcode)

/-- `CPU::execute`: fetch, then decode and execute. -/
def CPU.execute (cpu : CPU) : Except EmuErr CPU := do
  let (opcode, cpu) ← cpu.fetchByte
  CPU.decodeExecute opcode cpu

/-- The `interrupt_handler` chain inside `CPU::dispatch_interrupts`:
scan `IF & IE` per-bit in priority order (V-blank, LCDC-STAT, timer,
serial, joypad); the winning bit is cleared in `IF` and the vector is
returned. -/
def CPU.interruptHandler (m : Memory) : Option (Memory × Nat) :=
  if (m.get 0xFF0F &&& 0x01) &&& (m.get 0xFFFF &&& 0x01) ≠ 0 then
    some (m.set 0xFF0F (m.get 0xFF0F &&& 0xFE), 0x40)
  else if (m.get 0xFF0F &&& 0x02) &&& (m.get 0xFFFF &&& 0x02) ≠ 0 then
    some (m.set 0xFF0F (m.get 0xFF0F &&& 0xFD), 0x48)
  else if (m.get 0xFF0F &&& 0x04) &&& (m.get 0xFFFF &&& 0x04) ≠ 0 then
    some (m.set 0xFF0F (m.get 0xFF0F &&& 0xFB), 0x50)
  else if (m.get 0xFF0F &&& 0x08) &&& (m.get 0xFFFF &&& 0x08) ≠ 0 then
    some (m.set 0xFF0F (m.get 0xFF0F &&& 0xF7), 0x58)
  else if (m.get 0xFF0F &&& 0x10) &&& (m.get 0xFFFF &&& 0x10) ≠ 0 then
    some (m.set 0xFF0F (m.get 0xFF0F &&& 0xEF), 0x60)
  else none

/-- `CPU::dispatch_interrupts`: with IME set, take the handler chain's
winner, clear IME, push PC and vector, charging 5 cycles; with IME
clear, a pending interrupt only wakes HALT.  The `sp -= 2` is checked,
so `sp < 2` aborts. -/
def CPU.dispatchInterrupts (cpu : CPU) : Except EmuErr CPU :=
  let cpuIsHalted :=
    match cpu.mode with
    | .halted => true
    | .run => false
  if cpu.ime then
    match CPU.interruptHandler cpu.mem with
    | some p =>
        if cpu.reg.sp < 2 then .error .addrOverflow
        else do
          let sp1 := cpu.reg.sp - 2
          let m2 ← p.1.writeWord sp1 cpu.reg.pc
          .ok { cpu with
            ime := false
            reg := { cpu.reg with sp := sp1, pc := p.2 }
            cyclesUntilDone := cpu.cyclesUntilDone + 5
            mem := m2
            mode := if cpuIsHalted then .run else cpu.mode }
    | none => .ok cpu
  else
    if cpuIsHalted then
      if cpu.mem.get 0xFF0F &&& cpu.mem.get 0xFFFF &&& 0x1F ≠ 0 then
        .ok { cpu with mode := .run }
      else .ok cpu
    else .ok cpu

/-- `CPU::tick`: dispatch interrupts; in Run mode execute an
instruction when the cycle budget is spent, then count it down. -/
def CPU.tick (cpu : CPU) : Except EmuErr CPU := do
  let cpu ← cpu.dispatchInterrupts
  match cpu.mode with
  | .run => do
      let cpu ← if cpu.cyclesUntilDone = 0 then cpu.execute else .ok cpu
      .ok { cpu with cyclesUntilDone := cpu.cyclesUntilDone - 1 }
  | .halted => .ok cpu

theorem and_mask_ne_zero_iff (x y b : Nat) :
    ((x &&& 2 ^ b) &&& (y &&& 2 ^ b) ≠ 0) ↔ (x &&& y).testBit b = true := by
  have h1 : (x &&& 2 ^ b) &&& (y &&& 2 ^ b) = (x &&& y) &&& 2 ^ b := by
    apply Nat.eq_of_testBit_eq
    intro i
    simp only [Nat.testBit_and]
    cases x.testBit i <;> cases y.testBit i <;> cases (2 ^ b).testBit i <;> rfl
  rw [h1, Nat.and_two_pow]
  cases h : (x &&& y).testBit b <;> simp [h, Nat.pow_eq_zero]

theorem and_one_ne_zero_iff (x y : Nat) :
    ((x &&& 0x01) &&& (y &&& 0x01) ≠ 0) ↔ (x &&& y).testBit 0 = true := by
  have h := and_mask_ne_zero_iff x y 0
  rw [show (2 : Nat) ^ 0 = 0x01 from by norm_num] at h
  exact h

theorem and_two_ne_zero_iff (x y : Nat) :
    ((x &&& 0x02) &&& (y &&& 0x02) ≠ 0) ↔ (x &&& y).testBit 1 = true := by
  have h := and_mask_ne_zero_iff x y 1
  rw [show (2 : Nat) ^ 1 = 0x02 from by norm_num] at h
  exact h

theorem and_four_ne_zero_iff (x y : Nat) :
    ((x &&& 0x04) &&& (y &&& 0x04) ≠ 0) ↔ (x &&& y).testBit 2 = true := by
  have h := and_mask_ne_zero_iff x y 2
  rw [show (2 : Nat) ^ 2 = 0x04 from by norm_num] at h
  exact h

theorem and_eight_ne_zero_iff (x y : Nat) :
    ((x &&& 0x08) &&& (y &&& 0x08) ≠ 0) ↔ (x &&& y).testBit 3 = true := by
  have h := and_mask_ne_zero_iff x y 3
  rw [show (2 : Nat) ^ 3 = 0x08 from by norm_num] at h
  exact h

theorem and_sixteen_ne_zero_iff (x y : Nat) :
    ((x &&& 0x10) &&& (y &&& 0x10) ≠ 0) ↔ (x &&& y).testBit 4 = true := by
  have h := and_mask_ne_zero_iff x y 4
  rw [show (2 : Nat) ^ 4 = 0x10 from by norm_num] at h
  exact h

theorem exists_low_bit (z : Nat) (h : z &&& 0x1F ≠ 0) :
    ∃ b, b < 5 ∧ z.testBit b = true := by
  by_contra hc
  push_neg at hc
  apply h
  apply Nat.eq_of_testBit_eq
  intro i
  simp only [Nat.testBit_and, Nat.zero_testBit, Bool.and_eq_false_iff]
  by_cases hi : i < 5
  · exact Or.inl (by simpa using hc i hi)
  · refine Or.inr (Nat.testBit_eq_false_of_lt ?_)
    have h5 : (0x1F : Nat) < 2 ^ 5 := by norm_num
    exact lt_of_lt_of_le h5 (Nat.pow_le_pow_right (by norm_num) (by omega))

/-- The handler chain picks exactly the highest-priority (lowest) set
bit of `IF & IE` among bits 0–4, clears it in `IF`, and yields the
vector `0x40 + 8·b`. -/
theorem CPU.interruptHandler_spec (m : Memory)
    (hpend : m.get 0xFF0F &&& m.get 0xFFFF &&& 0x1F ≠ 0) :
    ∃ b, b < 5 ∧
      (m.get 0xFF0F &&& m.get 0xFFFF).testBit b = true ∧
      (∀ c, c < b → (m.get 0xFF0F &&& m.get 0xFFFF).testBit c = false) ∧
      CPU.interruptHandler m =
        some (m.set 0xFF0F (m.get 0xFF0F &&& (0xFF ^^^ (1 <<< b))),
          0x40 + 8 * b) := by
  unfold CPU.interruptHandler
  by_cases h0 : (m.get 0xFF0F &&& 0x01) &&& (m.get 0xFFFF &&& 0x01) ≠ 0
  · refine ⟨0, by norm_num, (and_one_ne_zero_iff _ _).mp h0,
      fun c hc => by omega, ?_⟩
    rw [if_pos h0, show (0xFF : Nat) ^^^ (1 <<< 0) = 0xFE from by decide]
  rw [if_neg h0]
  have t0 : (m.get 0xFF0F &&& m.get 0xFFFF).testBit 0 = false := by
    rw [← Bool.not_eq_true, ← and_one_ne_zero_iff]; simpa using h0
  by_cases h1 : (m.get 0xFF0F &&& 0x02) &&& (m.get 0xFFFF &&& 0x02) ≠ 0
  · refine ⟨1, by norm_num, (and_two_ne_zero_iff _ _).mp h1,
      fun c hc => by interval_cases c; exact t0, ?_⟩
    rw [if_pos h1, show (0xFF : Nat) ^^^ (1 <<< 1) = 0xFD from by decide]
  rw [if_neg h1]
  have t1 : (m.get 0xFF0F &&& m.get 0xFFFF).testBit 1 = false := by
    rw [← Bool.not_eq_true, ← and_two_ne_zero_iff]; simpa using h1
  by_cases h2 : (m.get 0xFF0F &&& 0x04) &&& (m.get 0xFFFF &&& 0x04) ≠ 0
  · refine ⟨2, by norm_num, (and_four_ne_zero_iff _ _).mp h2,
      fun c hc => by interval_cases c; exacts [t0, t1], ?_⟩
    rw [if_pos h2, show (0xFF : Nat) ^^^ (1 <<< 2) = 0xFB from by decide]
  rw [if_neg h2]
  have t2 : (m.get 0xFF0F &&& m.get 0xFFFF).testBit 2 = false := by
    rw [← Bool.not_eq_true, ← and_four_ne_zero_iff]; simpa using h2
  by_cases h3 : (m.get 0xFF0F &&& 0x08) &&& (m.get 0xFFFF &&& 0x08) ≠ 0
  · refine ⟨3, by norm_num, (and_eight_ne_zero_iff _ _).mp h3,
      fun c hc => by interval_cases c; exacts [t0, t1, t2], ?_⟩
    rw [if_pos h3, show (0xFF : Nat) ^^^ (1 <<< 3) = 0xF7 from by decide]
  rw [if_neg h3]
  have t3 : (m.get 0xFF0F &&& m.get 0xFFFF).testBit 3 = false := by
    rw [← Bool.not_eq_true, ← and_eight_ne_zero_iff]; simpa using h3
  by_cases h4 : (m.get 0xFF0F &&& 0x10) &&& (m.get 0xFFFF &&& 0x10) ≠ 0
  · refine ⟨4, by norm_num, (and_sixteen_ne_zero_iff _ _).mp h4,
      fun c hc => by interval_cases c; exacts [t0, t1, t2, t3], ?_⟩
    rw [if_pos h4, show (0xFF : Nat) ^^^ (1 <<< 4) = 0xEF from by decide]
  have t4 : (m.get 0xFF0F &&& m.get 0xFFFF).testBit 4 = false := by
    rw [← Bool.not_eq_true, ← and_sixteen_ne_zero_iff]; simpa using h4
  obtain ⟨b, hb5, hbit⟩ := exists_low_bit (m.get 0xFF0F &&& m.get 0xFFFF) hpend
  interval_cases b <;> simp_all

/-- C2: with IME set and some bit of `IF & IE & 0x1F` pending, exactly
one interrupt is dispatched: the highest-priority (lowest) pending bit
`b` is cleared in IF, IME is cleared, SP drops by 2, PC is pushed as a
word to `[SP]`, PC becomes the vector `0x40 + 8·b` (0x40, 0x48, 0x50,
0x58, 0x60 for V-blank, STAT, timer, serial, joypad), and 5 machine
cycles are charged.  `2 ≤ SP ≤ 0xFFFF` keeps the checked `sp -= 2` and
the word push in range. -/
theorem interrupt_dispatch (cpu : CPU) (hime : cpu.ime = true)
    (hpend : cpu.mem.get 0xFF0F &&& cpu.mem.get 0xFFFF &&& 0x1F ≠ 0)
    (hsp2 : 2 ≤ cpu.reg.sp) (hsp : cpu.reg.sp ≤ 0xFFFF) :
    ∃ b, b < 5 ∧
      (cpu.mem.get 0xFF0F &&& cpu.mem.get 0xFFFF).testBit b = true ∧
      (∀ c, c < b → (cpu.mem.get 0xFF0F &&& cpu.mem.get 0xFFFF).testBit c
        = false) ∧
      ∃ cpu',
        cpu.dispatchInterrupts = .ok cpu' ∧
        cpu'.ime = false ∧
        cpu'.reg.sp = cpu.reg.sp - 2 ∧
        cpu'.reg.pc = 0x40 + 8 * b ∧
        cpu'.cyclesUntilDone = cpu.cyclesUntilDone + 5 ∧
        (cpu.mem.set 0xFF0F (cpu.mem.get 0xFF0F &&&
          (0xFF ^^^ (1 <<< b)))).writeWord (cpu.reg.sp - 2) cpu.reg.pc
          = .ok cpu'.mem := by
  obtain ⟨b, hb5, hbit, hleast, hhandler⟩ :=
    CPU.interruptHandler_spec cpu.mem hpend
  refine ⟨b, hb5, hbit, hleast, ?_⟩
  have hww : ∃ mem', (cpu.mem.set 0xFF0F (cpu.mem.get 0xFF0F &&&
      (0xFF ^^^ (1 <<< b)))).writeWord (cpu.reg.sp - 2) cpu.reg.pc
      = .ok mem' := by
    rw [Memory.writeWord, if_pos (by omega)]
    exact ⟨_, rfl⟩
  obtain ⟨mem', hmem'⟩ := hww
  unfold CPU.dispatchInterrupts
  rw [hime, if_pos rfl, hhandler]
  dsimp only
  rw [if_neg (show ¬cpu.reg.sp < 2 by omega), hmem']
  exact ⟨_, rfl, rfl, rfl, rfl, rfl, rfl⟩

/-- A concrete memory with `IF = IE = 0x1F`. -/
def memC2 : Memory :=
  ⟨fun a => if a = 0xFF0F then 0x1F else if a = 0xFFFF then 0x1F else 0,
    fun _ => false⟩

/-- The post-boot CPU on `memC2` with IME enabled. -/
def cpuC2 : CPU := { CPU.new memC2 with ime := true }

/-- C2 witness. -/
theorem interrupt_dispatch_witness :
    (cpuC2.ime = true ∧
     cpuC2.mem.get 0xFF0F &&& cpuC2.mem.get 0xFFFF &&& 0x1F ≠ 0 ∧
     2 ≤ cpuC2.reg.sp ∧ cpuC2.reg.sp ≤ 0xFFFF) ∧
    ∃ b, b < 5 ∧
      (cpuC2.mem.get 0xFF0F &&& cpuC2.mem.get 0xFFFF).testBit b = true ∧
      (∀ c, c < b → (cpuC2.mem.get 0xFF0F &&& cpuC2.mem.get 0xFFFF).testBit c
        = false) ∧
      ∃ cpu',
        cpuC2.dispatchInterrupts = .ok cpu' ∧
        cpu'.ime = false ∧
        cpu'.reg.sp = cpuC2.reg.sp - 2 ∧
        cpu'.reg.pc = 0x40 + 8 * b ∧
        cpu'.cyclesUntilDone = cpuC2.cyclesUntilDone + 5 ∧
        (cpuC2.mem.set 0xFF0F (cpuC2.mem.get 0xFF0F &&&
          (0xFF ^^^ (1 <<< b)))).writeWord (cpuC2.reg.sp - 2) cpuC2.reg.pc
          = .ok cpu'.mem :=
  ⟨⟨rfl, by decide, by decide, by decide⟩,
    interrupt_dispatch cpuC2 rfl (by decide) (by decide) (by decide)⟩

/-- C5: evaluation at a failing input.  `AND 0x0F` on the post-boot CPU
(`A = 0x01`) leaves `A = 0x01 ≠ 0` and writes `F = 0x40`: the N flag
(bit 6) is SET and the H flag (bit 5) is CLEAR, while the claim (and
LR35902 hardware) require H set and N clear.  XOR and OR do clear
N/H/C as claimed (their flag words are `Z`-only), shown on the same
state. -/
theorem and_sets_N_instead_of_H :
    (CPU.and (.imm 0x0F) (CPU.new memZero)).reg.a = 0x01 ∧
    (CPU.and (.imm 0x0F) (CPU.new memZero)).reg.f = 0x40 ∧
    Nat.testBit 0x40 6 = true ∧
    Nat.testBit 0x40 5 = false ∧
    (CPU.xor (.imm 0x0F) (CPU.new memZero)).reg.f = 0x00 ∧
    (CPU.or (.imm 0x0F) (CPU.new memZero)).reg.f = 0x00 := by
  refine ⟨by decide, by decide, by decide, by decide, by decide, by decide⟩

theorem Registers.byteRegister_setByteRegister (r : Registers)
    (reg : ByteReg) (v : Nat) :
    (r.setByteRegister reg v).byteRegister reg = v := by
  cases reg <;> rfl

theorem Registers.byteRegister_setFlags (r : Registers) (reg : ByteReg)
    (fl : Nat) : (r.setFlags fl).byteRegister reg = r.byteRegister reg := by
  cases reg <;> rfl

/-- C6: for every CPU state and register operand, SWAP writes back the
`&`-recombination `(low_nibble << 4) & (high_nibble >> 4)` of the
operand's nibbles, and the flag byte is exactly `Z` when the written
result is zero and empty otherwise (so N, H and C are cleared). -/
theorem swap_writes_and_recombination (cpu : CPU) (r : ByteReg) :
    (CPU.swap (.reg r) cpu).reg.byteRegister r =
      ((cpu.reg.byteRegister r &&& 0x0F) <<< 4) &&&
      ((cpu.reg.byteRegister r &&& 0xF0) >>> 4) ∧
    (CPU.swap (.reg r) cpu).reg.f =
      (if (CPU.swap (.reg r) cpu).reg.byteRegister r = 0 then Flags.Z
       else 0) := by
  unfold CPU.swap
  dsimp only [Operand8.read, Operand8.write]
  constructor
  · rw [Registers.byteRegister_setFlags, Registers.byteRegister_setByteRegister]
  · rw [Registers.byteRegister_setFlags, Registers.byteRegister_setByteRegister]
    rfl

/-- The spec's reading of the 0x80–0xBF operand column: the low 3 bits
select B, C, D, E, H, L, (HL), A. -/
def aluOperandSpec (opcode : Nat) : Source8 :=
  if opcode % 8 = 0 then .op (.reg .B)
  else if opcode % 8 = 1 then .op (.reg .C)
  else if opcode % 8 = 2 then .op (.reg .D)
  else if opcode % 8 = 3 then .op (.reg .E)
  else if opcode % 8 = 4 then .op (.reg .H)
  else if opcode % 8 = 5 then .op (.reg .L)
  else if opcode % 8 = 6 then .op (.ind .hl)
  else .op (.reg .A)

/-- The spec's reading of the 0x80–0xBF family rows: ADD, ADC, SUB,
SBC, AND, XOR, OR, CP by bits 5:3; rows 2 and 3 (SUB, SBC) have no
implementation in the decode table, so they are not mapped here. -/
def aluFamilySpec (opcode : Nat) : Source8 → CPU → CPU :=
  if (opcode - 0x80) / 8 = 0 then CPU.addByte
  else if (opcode - 0x80) / 8 = 1 then CPU.addWithCarry
  else if (opcode - 0x80) / 8 = 4 then CPU.and
  else if (opcode - 0x80) / 8 = 5 then CPU.xor
  else if (opcode - 0x80) / 8 = 6 then CPU.or
  else CPU.compare

set_option maxHeartbeats 2000000

/-- C3 (amended): for every opcode in 0x80–0xBF outside 0x90–0x9F, the
decode table performs the corresponding ALU operation on A (ADD, ADC,
AND, XOR, OR, CP with the operand selected by the low 3 bits) on the
post-fetch state; the SUB/SBC rows 0x90–0x9F have no arm and `execute`
returns the `Unimplemented opcode` error for them. -/
theorem alu_block_decode (cpu : CPU) (opcode : Nat)
    (hpc : cpu.reg.pc + 1 ≤ 0xFFFF)
    (hop : cpu.mem.readByte cpu.reg.pc = opcode)
    (h1 : 0x80 ≤ opcode) (h2 : opcode ≤ 0xBF) :
    (¬(0x90 ≤ opcode ∧ opcode ≤ 0x9F) →
      CPU.execute cpu = .ok (aluFamilySpec opcode (aluOperandSpec opcode)
        { cpu with
          reg := { cpu.reg with pc := cpu.reg.pc + 1 }
          cyclesUntilDone := cpu.cyclesUntilDone + 1 })) ∧
    (0x90 ≤ opcode → opcode ≤ 0x9F →
      CPU.execute cpu = .error (.unimplementedOpcode opcode)) := by
  have hfetch : cpu.fetchByte = .ok (opcode,
      { cpu with
        reg := { cpu.reg with pc := cpu.reg.pc + 1 }
        cyclesUntilDone := cpu.cyclesUntilDone + 1 }) := by
    rw [CPU.fetchByte, if_pos hpc, hop]
  unfold CPU.execute
  rw [hfetch]
  show (¬_ → CPU.decodeExecute opcode _ = _) ∧
    (_ → _ → CPU.decodeExecute opcode _ = _)
  interval_cases opcode <;>
    exact ⟨fun h => by norm_num [CPU.decodeExecute, aluFamilySpec,
        aluOperandSpec] at h ⊢,
      fun ha hb => by first
        | omega
        | norm_num [CPU.decodeExecute]⟩

/-- A memory filled with the SUB B opcode 0x90. -/
def memC3 : Memory := ⟨fun _ => 0x90, fun _ => false⟩

/-- C3 counterexample to the claim as stated: from the post-boot CPU,
executing opcode 0x90 (SUB B) returns the `Unimplemented opcode`
error — the 0x90–0x9F rows of the claimed 0x80–0xBF ALU block are not
decoded. -/
theorem sub_opcode_unimplemented :
    (CPU.new memC3).mem.readByte (CPU.new memC3).reg.pc = 0x90 ∧
    CPU.execute (CPU.new memC3) = .error (.unimplementedOpcode 0x90) :=
  ⟨by decide, rfl⟩

/-- C3 witness for the amended theorem: opcode 0xA0 (AND B) from the
post-boot CPU on an all-0xA0 memory decodes to the AND family. -/
theorem alu_block_decode_witness :
    ((CPU.new ⟨fun _ => 0xA0, fun _ => false⟩).reg.pc + 1 ≤ 0xFFFF ∧
     (CPU.new ⟨fun _ => 0xA0, fun _ => false⟩).mem.readByte
       (CPU.new ⟨fun _ => 0xA0, fun _ => false⟩).reg.pc = 0xA0 ∧
     0x80 ≤ 0xA0 ∧ (0xA0 : Nat) ≤ 0xBF) ∧
    (¬(0x90 ≤ 0xA0 ∧ (0xA0 : Nat) ≤ 0x9F) →
      CPU.execute (CPU.new ⟨fun _ => 0xA0, fun _ => false⟩) =
        .ok (aluFamilySpec 0xA0 (aluOperandSpec 0xA0)
          { CPU.new ⟨fun _ => 0xA0, fun _ => false⟩ with
            reg := { (CPU.new ⟨fun _ => 0xA0, fun _ => false⟩).reg with
              pc := (CPU.new ⟨fun _ => 0xA0, fun _ => false⟩).reg.pc + 1 }
            cyclesUntilDone :=
              (CPU.new ⟨fun _ => 0xA0, fun _ => false⟩).cyclesUntilDone
                + 1 })) :=
  ⟨⟨by decide, by decide, by decide, by decide⟩,
    (alu_block_decode (CPU.new ⟨fun _ => 0xA0, fun _ => false⟩) 0xA0
      (by decide) (by decide) (by decide) (by decide)).1⟩

end Gaby
